import Mathlib

/-
Verification of the patched shared-memory initializer in shm_win_patch.py.

The module replaces multiprocessing.shared_memory.SharedMemory.__init__ with
_SharedMemory_init.  We embed that function shallowly: the operating system
is an explicit state (named objects for the POSIX and the Windows family,
open descriptors/handles/views, the resource-tracker registrations and a
chronological trace of the OS calls made), every fallible OS primitive
consults a fault oracle carried in the state, and the initializer is a pure
state-passing function returning `Except InitErr SHandle`.

Conventions of the model:
  - `rtrace` lists the OS-call events most recent first; the chronological
    order is `rtrace.reverse`.
  - Kernel objects of the Windows family carry a handle count and a view
    count; an object disappears from the namespace exactly when both drop
    to zero (the reference-counted lifetime of a file-mapping object).
  - Sizes are exact byte counts; the model does not round sizes to page
    granularity.
  - The randomness consumed by _make_filename is an explicit list of
    entropy byte lists, one per generated candidate name; the auto-generate
    retry loop of the source is recursion over that list, and running out
    of candidates yields the artificial outcome `InitErr.outOfCandidates`.
  - Cleanup primitives of the source (CloseHandle, UnmapViewOfFile,
    shm_unlink, resource-tracker calls) are modelled as always succeeding.
-/

set_option maxHeartbeats 1600000

/-- Access mode of an mmap view: mmap.ACCESS_READ, or the read-write access
used when the mmap call receives no access argument. -/
inductive Access where
  | read
  | write
deriving DecidableEq, Repr

/-- One OS-level call made by the patched initializer.  Constructors mirror
the primitives used in shm_win_patch.py. -/
inductive Event where
  | evShmOpen (name : String) (flags : Nat)
  | evFtruncate (fd : Nat) (size : Nat)
  | evFstat (fd : Nat)
  | evMmapFd (fd : Nat) (size : Nat)
  | evShmUnlink (name : String)
  | evRegister (name : String) (category : String)
  | evUnregister (name : String) (category : String)
  | evCreateFileMapping (name : String) (size : Nat) (h : Nat)
  | evCloseHandle (h : Nat)
  | evMmapTag (id : Nat) (size : Nat) (tag : String) (access : Access)
  | evOpenFileMapping (name : String) (h : Nat)
  | evMapViewOfFile (h : Nat) (p : Nat)
  | evVirtualQuerySize (p : Nat)
  | evUnmapViewOfFile (p : Nat)
deriving DecidableEq, Repr

/-- A kernel file-mapping object of the Windows family: its byte size, the
number of open handles to it and the number of mapped views of it. -/
structure ShmObj where
  size : Nat
  handles : Nat
  views : Nat
deriving DecidableEq, Repr

/-- An in-process mmap view as produced by Python's mmap.mmap: a fresh
identifier (standing for the view address and the internal file-mapping
handle the mmap object owns), the mapped length, the tagname when the view
was opened by name (Windows family), and the access mode. -/
structure MMapObj where
  id : Nat
  size : Nat
  tag : Option String
  access : Access
deriving DecidableEq, Repr

/-- The fields of the SharedMemory object that _SharedMemory_init assigns:
self._name, self._size, self._mmap and self._flags. -/
structure SHandle where
  name : String
  size : Nat
  mmapObj : MMapObj
  flags : Nat
deriving DecidableEq, Repr

/-- Errors raised by the initializer.  `invalidSize` and `missingName` are
the ValueError cases of the argument validation, `fileExists` is Python's
FileExistsError, `fileNotFound` the FileNotFoundError of attaching to an
absent name, `osError` any other OSError injected by the fault oracle, and
`outOfCandidates` is the modelling artefact of exhausting the finite
entropy list in the auto-generated-name retry loop. -/
inductive InitErr where
  | invalidSize
  | missingName
  | fileExists
  | fileNotFound
  | osError
  | outOfCandidates
deriving DecidableEq, Repr

/-- The operating-system state the initializer runs against. -/
structure OSState where
  posixObjs : List (String × Nat)
  winObjs : List (String × ShmObj)
  registered : List (String × String)
  posixFds : List (Nat × String)
  winHandles : List (Nat × String)
  winPtrs : List (Nat × String)
  nextId : Nat
  lastError : Nat
  faults : List Bool
  callCount : Nat
  rtrace : List Event
deriving DecidableEq, Repr

/-- Look up the first entry with the given key in an association list. -/
def assocFind {κ α : Type} [DecidableEq κ] : List (κ × α) → κ → Option α
  | [], _ => none
  | (k1, v) :: t, k => if k1 = k then some v else assocFind t k

/-- Replace the value of the first entry with the given key. -/
def assocSet {κ α : Type} [DecidableEq κ] : List (κ × α) → κ → α → List (κ × α)
  | [], _, _ => []
  | (k1, v1) :: t, k, v => if k1 = k then (k, v) :: t else (k1, v1) :: assocSet t k v

/-- Remove the first entry with the given key. -/
def assocRemove {κ α : Type} [DecidableEq κ] : List (κ × α) → κ → List (κ × α)
  | [], _ => []
  | (k1, v1) :: t, k => if k1 = k then t else (k1, v1) :: assocRemove t k

/-- Remove the first occurrence of an element from a list. -/
def removeFirst {α : Type} [DecidableEq α] : List α → α → List α
  | [], _ => []
  | x :: t, a => if x = a then t else x :: removeFirst t a

/-- os.O_RDWR (the numeric values are the Linux ones; only the bit tests of
the source matter and they evaluate identically on either family). -/
def O_RDWR : Nat := 2

/-- os.O_CREAT. -/
def O_CREAT : Nat := 64

/-- os.O_EXCL. -/
def O_EXCL : Nat := 128

/-- _O_CREX = os.O_CREAT | os.O_EXCL, as in the source. -/
def _O_CREX : Nat := O_CREAT ||| O_EXCL

/-- _winapi.ERROR_ALREADY_EXISTS. -/
def ERROR_ALREADY_EXISTS : Nat := 183

/-- FreeBSD (and perhaps other BSDs) limit names to 14 characters. -/
def _SHM_SAFE_NAME_LENGTH : Nat := 14

/-- The shared memory block name lead-in of the source: '/psm_' for the
POSIX family, 'wnsm_' for the Windows family. -/
def shmNamePfx (usePosix : Bool) : String :=
  if usePosix then "/psm_" else "wnsm_"

/-- One lowercase hexadecimal digit. -/
def hexChar (n : Nat) : Char :=
  if n < 10 then Char.ofNat (48 + n) else Char.ofNat (87 + n)

/-- secrets.token_hex nbytes: two lowercase hex digits per random byte, in
byte order.  The entropy list supplies the random bytes (reduced mod 256,
padded with zeros when too short), so the result always has 2*nbytes
characters, exactly as token_hex guarantees. -/
def tokenHex : Nat → List Nat → List Char
  | 0, _ => []
  | n + 1, e =>
      hexChar (e.getD 0 0 % 256 / 16) :: hexChar (e.getD 0 0 % 256 % 16) ::
        tokenHex n (e.drop 1)

/-- _make_filename of the source: the platform lead-in followed by the hex
encoding of (_SHM_SAFE_NAME_LENGTH - len(lead-in)) // 2 random bytes. -/
def _make_filename (usePosix : Bool) (entropy : List Nat) : String :=
  String.mk ((shmNamePfx usePosix).data ++
    tokenHex ((_SHM_SAFE_NAME_LENGTH - (shmNamePfx usePosix).length) / 2) entropy)

/-- The answer of the fault oracle for the next OS call (false beyond the
end of the list): true makes that call raise OSError. -/
def faultAt (s : OSState) : Bool :=
  s.faults.getD s.callCount false

/-- _posixshmem.shm_open: exclusive creation when O_CREAT|O_EXCL is in the
flags, plain open otherwise.  A fresh object has size 0 until ftruncate. -/
def shm_open (nm : String) (flags : Nat) (s0 : OSState) :
    Except InitErr Nat × OSState :=
  let s1 := { s0 with callCount := s0.callCount + 1,
                      rtrace := .evShmOpen nm flags :: s0.rtrace }
  if faultAt s0 then (.error .osError, s1)
    else
      match assocFind s1.posixObjs nm with
      | some _ =>
          if flags &&& O_EXCL ≠ 0 then (.error .fileExists, s1)
          else (.ok s1.nextId,
            { s1 with posixFds := (s1.nextId, nm) :: s1.posixFds,
                      nextId := s1.nextId + 1 })
      | none =>
          if flags &&& O_CREAT ≠ 0 then
            (.ok s1.nextId,
              { s1 with posixObjs := (nm, 0) :: s1.posixObjs,
                        posixFds := (s1.nextId, nm) :: s1.posixFds,
                        nextId := s1.nextId + 1 })
          else (.error .fileNotFound, s1)

/-- os.ftruncate on a shared-memory descriptor: set the object size. -/
def ftruncate (fd : Nat) (size : Nat) (s0 : OSState) :
    Except InitErr Unit × OSState :=
  let s1 := { s0 with callCount := s0.callCount + 1,
                      rtrace := .evFtruncate fd size :: s0.rtrace }
  if faultAt s0 then (.error .osError, s1)
    else
      match assocFind s1.posixFds fd with
      | some nm => (.ok (), { s1 with posixObjs := assocSet s1.posixObjs nm size })
      | none => (.error .osError, s1)

/-- os.fstat(...).st_size on a shared-memory descriptor. -/
def fstat (fd : Nat) (s0 : OSState) : Except InitErr Nat × OSState :=
  let s1 := { s0 with callCount := s0.callCount + 1,
                      rtrace := .evFstat fd :: s0.rtrace }
  if faultAt s0 then (.error .osError, s1)
    else
      match assocFind s1.posixFds fd with
      | some nm =>
          match assocFind s1.posixObjs nm with
          | some sz => (.ok sz, s1)
          | none => (.error .osError, s1)
      | none => (.error .osError, s1)

/-- mmap.mmap(fd, size) on the POSIX family: a fresh read-write view. -/
def mmapFd (fd : Nat) (size : Nat) (s0 : OSState) :
    Except InitErr MMapObj × OSState :=
  let s1 := { s0 with callCount := s0.callCount + 1,
                      rtrace := .evMmapFd fd size :: s0.rtrace }
  if faultAt s0 then (.error .osError, s1)
    else (.ok { id := s1.nextId, size := size, tag := none, access := .write },
          { s1 with nextId := s1.nextId + 1 })

/-- multiprocessing.resource_tracker.register. -/
def register (nm : String) (cat : String) (s : OSState) : OSState :=
  { s with registered := (nm, cat) :: s.registered,
           rtrace := .evRegister nm cat :: s.rtrace }

/-- SharedMemory.unlink of the patched class (unchanged by the patch): on
the POSIX family it removes the name with _posixshmem.shm_unlink and
unregisters it from the resource tracker. -/
def selfUnlink (nm : String) (s : OSState) : OSState :=
  let s1 := { s with posixObjs := assocRemove s.posixObjs nm,
                     rtrace := .evShmUnlink nm :: s.rtrace }
  { s1 with registered := removeFirst s1.registered (nm, "shared_memory"),
            rtrace := .evUnregister nm "shared_memory" :: s1.rtrace }

/-- _winapi.CreateFileMapping: returns a fresh handle.  When the name is
taken it opens the existing object and signals ERROR_ALREADY_EXISTS through
GetLastError; otherwise it creates the object with one handle reference. -/
def createFileMapping (nm : String) (size : Nat) (s0 : OSState) :
    Except InitErr Nat × OSState :=
  let h := s0.nextId
  let s1 := { s0 with callCount := s0.callCount + 1,
                      rtrace := .evCreateFileMapping nm size h :: s0.rtrace }
  if faultAt s0 then (.error .osError, s1)
    else
      match assocFind s1.winObjs nm with
      | some o =>
          (.ok h, { s1 with
            winObjs := assocSet s1.winObjs nm { o with handles := o.handles + 1 },
            winHandles := (h, nm) :: s1.winHandles,
            nextId := h + 1,
            lastError := ERROR_ALREADY_EXISTS })
      | none =>
          (.ok h, { s1 with
            winObjs := (nm, { size := size, handles := 1, views := 0 }) :: s1.winObjs,
            winHandles := (h, nm) :: s1.winHandles,
            nextId := h + 1,
            lastError := 0 })

/-- _winapi.CloseHandle: drop one handle reference; the object disappears
from the namespace when no handle and no view remains. -/
def closeHandle (h : Nat) (s : OSState) : OSState :=
  let s1 := { s with rtrace := .evCloseHandle h :: s.rtrace }
  match assocFind s1.winHandles h with
  | none => s1
  | some nm =>
    let s2 := { s1 with winHandles := assocRemove s1.winHandles h }
    match assocFind s2.winObjs nm with
    | none => s2
    | some o =>
      let o2 := { o with handles := o.handles - 1 }
      if o2.handles = 0 ∧ o2.views = 0 then
        { s2 with winObjs := assocRemove s2.winObjs nm }
      else { s2 with winObjs := assocSet s2.winObjs nm o2 }

/-- mmap.mmap(-1, size, tagname=..., access=...): maps a view of the named
file-mapping object, creating the object when the tag is free (CPython's
mmap itself calls CreateFileMapping).  The view holds one reference. -/
def winMmapTag (size : Nat) (tag : String) (acc : Access) (s0 : OSState) :
    Except InitErr MMapObj × OSState :=
  let mid := s0.nextId
  let s1 := { s0 with callCount := s0.callCount + 1,
                      rtrace := .evMmapTag mid size tag acc :: s0.rtrace }
  if faultAt s0 then (.error .osError, s1)
    else
      match assocFind s1.winObjs tag with
      | some o =>
          (.ok { id := mid, size := size, tag := some tag, access := acc },
           { s1 with winObjs := assocSet s1.winObjs tag { o with views := o.views + 1 },
                     nextId := mid + 1 })
      | none =>
          (.ok { id := mid, size := size, tag := some tag, access := acc },
           { s1 with winObjs := (tag, { size := size, handles := 0, views := 1 }) :: s1.winObjs,
                     nextId := mid + 1 })

/-- _winapi.OpenFileMapping(FILE_MAP_READ, False, name). -/
def openFileMapping (nm : String) (s0 : OSState) :
    Except InitErr Nat × OSState :=
  let h := s0.nextId
  let s1 := { s0 with callCount := s0.callCount + 1,
                      rtrace := .evOpenFileMapping nm h :: s0.rtrace }
  if faultAt s0 then (.error .osError, s1)
    else
      match assocFind s1.winObjs nm with
      | some o =>
          (.ok h, { s1 with
            winObjs := assocSet s1.winObjs nm { o with handles := o.handles + 1 },
            winHandles := (h, nm) :: s1.winHandles,
            nextId := h + 1 })
      | none => (.error .fileNotFound, s1)

/-- _winapi.MapViewOfFile: a new view through an open handle. -/
def mapViewOfFile (h : Nat) (s0 : OSState) : Except InitErr Nat × OSState :=
  let p := s0.nextId
  let s1 := { s0 with callCount := s0.callCount + 1,
                      rtrace := .evMapViewOfFile h p :: s0.rtrace }
  if faultAt s0 then (.error .osError, s1)
    else
      match assocFind s1.winHandles h with
      | some nm =>
          match assocFind s1.winObjs nm with
          | some o =>
              (.ok p, { s1 with
                winObjs := assocSet s1.winObjs nm { o with views := o.views + 1 },
                winPtrs := (p, nm) :: s1.winPtrs,
                nextId := p + 1 })
          | none => (.error .osError, s1)
      | none => (.error .osError, s1)

/-- _winapi.VirtualQuerySize on a mapped view: the size of the region. -/
def virtualQuerySize (p : Nat) (s0 : OSState) : Except InitErr Nat × OSState :=
  let s1 := { s0 with callCount := s0.callCount + 1,
                      rtrace := .evVirtualQuerySize p :: s0.rtrace }
  if faultAt s0 then (.error .osError, s1)
    else
      match assocFind s1.winPtrs p with
      | some nm =>
          match assocFind s1.winObjs nm with
          | some o => (.ok o.size, s1)
          | none => (.error .osError, s1)
      | none => (.error .osError, s1)

/-- kernel32.UnmapViewOfFile: drop one view reference; the object
disappears when no handle and no view remains. -/
def unmapViewOfFile (p : Nat) (s : OSState) : OSState :=
  let s1 := { s with rtrace := .evUnmapViewOfFile p :: s.rtrace }
  match assocFind s1.winPtrs p with
  | none => s1
  | some nm =>
    let s2 := { s1 with winPtrs := assocRemove s1.winPtrs p }
    match assocFind s2.winObjs nm with
    | none => s2
    | some o =>
      let o2 := { o with views := o.views - 1 }
      if o2.handles = 0 ∧ o2.views = 0 then
        { s2 with winObjs := assocRemove s2.winObjs nm }
      else { s2 with winObjs := assocSet s2.winObjs nm o2 }

/-- The POSIX-family auto-generated-name loop of the source: generate a
candidate with _make_filename, attempt exclusive creation, retry on
FileExistsError.  Recursion is over the finite entropy list. -/
def posixAutoOpen (flags : Nat) : List (List Nat) → OSState →
    Except InitErr (Nat × String) × OSState
  | [], s => (.error .outOfCandidates, s)
  | entropy :: rest, s =>
    let nm := _make_filename true entropy
    match shm_open nm flags s with
    | (.ok fd, s1) => (.ok (fd, nm), s1)
    | (.error .fileExists, s1) => posixAutoOpen flags rest s1
    | (.error e, s1) => (.error e, s1)

/-- The POSIX-family body after the descriptor is obtained (lines 88-99 of
the source): ftruncate when creating, fstat to discover the size, mmap,
with self.unlink() on OSError, then resource-tracker registration. -/
def posixBody (flags : Nat) (create : Bool) (size : Nat) (fd : Nat) (nm : String)
    (s : OSState) : Except InitErr SHandle × OSState :=
  match (if create ∧ size ≠ 0 then ftruncate fd size s else (.ok (), s)) with
  | (.error e, s1) => (.error e, selfUnlink nm s1)
  | (.ok _, s1) =>
    match fstat fd s1 with
    | (.error e, s2) => (.error e, selfUnlink nm s2)
    | (.ok sz, s2) =>
      match mmapFd fd sz s2 with
      | (.error e, s3) => (.error e, selfUnlink nm s3)
      | (.ok m, s3) =>
        let s4 := register nm "shared_memory" s3
        (.ok { name := nm, size := sz, mmapObj := m, flags := flags }, s4)

/-- The POSIX branch of _SharedMemory_init.  A caller-supplied name gets
the leading slash prepended (self._prepend_leading_slash is true on the
POSIX family). -/
def posixPath (nameArg : Option String) (create : Bool) (size : Nat) (flags : Nat)
    (rand : List (List Nat)) (s : OSState) : Except InitErr SHandle × OSState :=
  match nameArg with
  | none =>
    match posixAutoOpen flags rand s with
    | (.error e, s1) => (.error e, s1)
    | (.ok (fd, nm), s1) => posixBody flags create size fd nm s1
  | some n =>
    let nm := "/" ++ n
    match shm_open nm flags s with
    | (.error e, s1) => (.error e, s1)
    | (.ok fd, s1) => posixBody flags create size fd nm s1

/-- One iteration of the Windows-family creation loop specialized to a
caller-supplied name (the loop then runs at most once): CreateFileMapping,
the GetLastError collision check raising FileExistsError, the read-only
persistent mmap view, and the finally-clause CloseHandle of the
reservation handle. -/
def winCreateNamed (n : String) (size : Nat) (flags : Nat) (s : OSState) :
    Except InitErr SHandle × OSState :=
  match createFileMapping n size s with
  | (.error e, s1) => (.error e, s1)
  | (.ok h, s1) =>
    if s1.lastError = ERROR_ALREADY_EXISTS then
      (.error .fileExists, closeHandle h s1)
    else
      match winMmapTag size n .read s1 with
      | (.error e, s2) => (.error e, closeHandle h s2)
      | (.ok m, s2) =>
          (.ok { name := n, size := size, mmapObj := m, flags := flags },
           closeHandle h s2)

/-- One iteration of the Windows-family creation loop with an
auto-generated candidate name: a collision closes the reservation handle
(the finally clause runs on the continue statement) and asks to retry,
signalled by the `none` result. -/
def winCreateAttemptAuto (tempName : String) (size : Nat) (flags : Nat)
    (s : OSState) : Except InitErr (Option SHandle) × OSState :=
  match createFileMapping tempName size s with
  | (.error e, s1) => (.error e, s1)
  | (.ok h, s1) =>
    if s1.lastError = ERROR_ALREADY_EXISTS then
      (.ok none, closeHandle h s1)
    else
      match winMmapTag size tempName .read s1 with
      | (.error e, s2) => (.error e, closeHandle h s2)
      | (.ok m, s2) =>
          (.ok (some { name := tempName, size := size, mmapObj := m, flags := flags }),
           closeHandle h s2)

/-- The Windows-family creation loop for an omitted name: recursion over
the entropy list, retrying on ERROR_ALREADY_EXISTS. -/
def winCreateAuto (size : Nat) (flags : Nat) : List (List Nat) → OSState →
    Except InitErr SHandle × OSState
  | [], s => (.error .outOfCandidates, s)
  | entropy :: rest, s =>
    match winCreateAttemptAuto (_make_filename false entropy) size flags s with
    | (.ok (some hd), s1) => (.ok hd, s1)
    | (.ok none, s1) => winCreateAuto size flags rest s1
    | (.error e, s1) => (.error e, s1)

/-- The Windows-family attach branch of the source (lines 136-160):
OpenFileMapping, the probe MapViewOfFile with the finally-clause
CloseHandle, VirtualQuerySize to discover the size, the persistent
read-write mmap view, and the finally-clause UnmapViewOfFile of the
probe view. -/
def winAttach (nm : String) (flags : Nat) (s : OSState) :
    Except InitErr SHandle × OSState :=
  match openFileMapping nm s with
  | (.error e, s1) => (.error e, s1)
  | (.ok h, s1) =>
    match mapViewOfFile h s1 with
    | (.error e, s2) => (.error e, closeHandle h s2)
    | (.ok p, s2) =>
      let s3 := closeHandle h s2
      match virtualQuerySize p s3 with
      | (.error e, s4) => (.error e, unmapViewOfFile p s4)
      | (.ok sz, s4) =>
        match winMmapTag sz nm .write s4 with
        | (.error e, s5) => (.error e, unmapViewOfFile p s5)
        | (.ok m, s5) =>
            (.ok { name := nm, size := sz, mmapObj := m, flags := flags },
             unmapViewOfFile p s5)

/-- The Windows branch of _SharedMemory_init.  The `none` name under
attach cannot be reached from _SharedMemory_init (the validation rejects
it first); the arm is present only for totality. -/
def winPath (nameArg : Option String) (create : Bool) (size : Nat) (flags : Nat)
    (rand : List (List Nat)) (s : OSState) : Except InitErr SHandle × OSState :=
  if create then
    match nameArg with
    | some n => winCreateNamed n size flags s
    | none => winCreateAuto size flags rand s
  else
    match nameArg with
    | some n => winAttach n flags s
    | none => (.error .missingName, s)

/-- _SharedMemory_init of shm_win_patch.py.  `usePosix` is the module's
_USE_POSIX constant, `rand` the entropy stream feeding _make_filename, and
`s` the operating-system state.  The flags mirror self._flags: the class
default os.O_RDWR, replaced by _O_CREX | os.O_RDWR when creating. -/
def _SharedMemory_init (usePosix : Bool) (nameArg : Option String) (create : Bool)
    (size : Int) (rand : List (List Nat)) (s : OSState) :
    Except InitErr SHandle × OSState :=
  if size < 0 then (.error .invalidSize, s)
  else
    let flags := if create then _O_CREX ||| O_RDWR else O_RDWR
    if create ∧ size = 0 then (.error .invalidSize, s)
    else if nameArg = none ∧ flags &&& O_EXCL = 0 then (.error .missingName, s)
    else if usePosix then posixPath nameArg create size.toNat flags rand s
    else winPath nameArg create size.toNat flags rand s

theorem assocFind_cons_self {κ α : Type} [DecidableEq κ] (k : κ) (v : α)
    (t : List (κ × α)) : assocFind ((k, v) :: t) k = some v := by
  simp [assocFind]

theorem assocFind_assocSet_self {κ α : Type} [DecidableEq κ]
    {l : List (κ × α)} {k : κ} {v : α} (w : α) (h : assocFind l k = some v) :
    assocFind (assocSet l k w) k = some w := by
  induction l with
  | nil => simp [assocFind] at h
  | cons p t ih =>
    obtain ⟨k1, v1⟩ := p
    by_cases hk : k1 = k
    · subst hk; simp [assocFind, assocSet]
    · simp only [assocFind, assocSet, if_neg hk] at h ⊢
      exact ih h

theorem assocSet_assocSet {κ α : Type} [DecidableEq κ]
    (l : List (κ × α)) (k : κ) (v w : α) :
    assocSet (assocSet l k v) k w = assocSet l k w := by
  induction l with
  | nil => simp [assocSet]
  | cons p t ih =>
    obtain ⟨k1, v1⟩ := p
    by_cases hk : k1 = k
    · subst hk; simp [assocSet]
    · simp only [assocSet, if_neg hk]
      exact congrArg (List.cons (k1, v1)) ih

theorem assocSet_eq_self {κ α : Type} [DecidableEq κ]
    {l : List (κ × α)} {k : κ} {v : α} (h : assocFind l k = some v) :
    assocSet l k v = l := by
  induction l with
  | nil => simp [assocSet]
  | cons p t ih =>
    obtain ⟨k1, v1⟩ := p
    by_cases hk : k1 = k
    · subst hk
      simp [assocFind] at h
      simp [assocSet, h]
    · simp only [assocFind, if_neg hk] at h
      simp only [assocSet, if_neg hk]
      exact congrArg (List.cons (k1, v1)) (ih h)

theorem assocRemove_cons_self {κ α : Type} [DecidableEq κ] (k : κ) (v : α)
    (t : List (κ × α)) : assocRemove ((k, v) :: t) k = t := by
  simp [assocRemove]

theorem assocFind_all {κ α : Type} [DecidableEq κ]
    {l : List (κ × α)} {f : κ × α → Bool} (hl : l.all f = true)
    {k : κ} {v : α} (h : assocFind l k = some v) : f (k, v) = true := by
  induction l with
  | nil => simp [assocFind] at h
  | cons p t ih =>
    obtain ⟨k1, v1⟩ := p
    simp only [List.all_cons, Bool.and_eq_true] at hl
    by_cases hk : k1 = k
    · subst hk
      simp [assocFind] at h
      subst h
      exact hl.1
    · simp only [assocFind, if_neg hk] at h
      exact ih hl.2 h

/-- Every object of the Windows namespace is live: it has at least one
handle or one view keeping it referenced.  Kernel states reachable through
the modelled primitives maintain this, since both reference-dropping
primitives delete an object the moment both counts reach zero. -/
def winWFb (s : OSState) : Bool :=
  s.winObjs.all (fun p => decide (0 < p.2.handles + p.2.views))

theorem winWFb_find {s : OSState} (hw : winWFb s = true) {nm : String}
    {o : ShmObj} (h : assocFind s.winObjs nm = some o) :
    0 < o.handles + o.views := by
  have := assocFind_all hw h
  simpa using this

theorem tokenHex_length (n : Nat) (e : List Nat) :
    (tokenHex n e).length = 2 * n := by
  induction n generalizing e with
  | zero => simp [tokenHex]
  | succ k ih =>
    simp only [tokenHex, List.length_cons, ih]
    omega

/-- Lowercase hexadecimal digits: 0-9 and a-f. -/
def isHexLower (c : Char) : Bool :=
  decide ((48 ≤ c.toNat ∧ c.toNat ≤ 57) ∨ (97 ≤ c.toNat ∧ c.toNat ≤ 102))

theorem hexChar_isHexLower {n : Nat} (h : n < 16) :
    isHexLower (hexChar n) = true := by
  interval_cases n <;> decide

theorem tokenHex_all_hex (n : Nat) (e : List Nat) :
    (tokenHex n e).all isHexLower = true := by
  induction n generalizing e with
  | zero => simp [tokenHex]
  | succ k ih =>
    simp only [tokenHex, List.all_cons, Bool.and_eq_true]
    refine ⟨hexChar_isHexLower (by omega), hexChar_isHexLower (by omega), ih _⟩

theorem shm_open_fault {nm : String} {flags : Nat} {s : OSState}
    (hf : faultAt s = true) :
    shm_open nm flags s =
      (.error .osError,
       { s with callCount := s.callCount + 1,
                rtrace := .evShmOpen nm flags :: s.rtrace }) := by
  simp [shm_open, hf]

theorem shm_open_excl_exists {nm : String} {flags : Nat} {s : OSState} {v : Nat}
    (hf : faultAt s = false) (hw : assocFind s.posixObjs nm = some v)
    (hx : flags &&& O_EXCL ≠ 0) :
    shm_open nm flags s =
      (.error .fileExists,
       { s with callCount := s.callCount + 1,
                rtrace := .evShmOpen nm flags :: s.rtrace }) := by
  simp [shm_open, hf, hw, hx]

theorem shm_open_attach {nm : String} {flags : Nat} {s : OSState} {v : Nat}
    (hf : faultAt s = false) (hw : assocFind s.posixObjs nm = some v)
    (hx : flags &&& O_EXCL = 0) :
    shm_open nm flags s =
      (.ok s.nextId,
       { s with callCount := s.callCount + 1,
                rtrace := .evShmOpen nm flags :: s.rtrace,
                posixFds := (s.nextId, nm) :: s.posixFds,
                nextId := s.nextId + 1 }) := by
  simp [shm_open, hf, hw, hx]

theorem shm_open_create {nm : String} {flags : Nat} {s : OSState}
    (hf : faultAt s = false) (hw : assocFind s.posixObjs nm = none)
    (hx : flags &&& O_CREAT ≠ 0) :
    shm_open nm flags s =
      (.ok s.nextId,
       { s with callCount := s.callCount + 1,
                rtrace := .evShmOpen nm flags :: s.rtrace,
                posixObjs := (nm, 0) :: s.posixObjs,
                posixFds := (s.nextId, nm) :: s.posixFds,
                nextId := s.nextId + 1 }) := by
  simp [shm_open, hf, hw, hx]

theorem shm_open_absent {nm : String} {flags : Nat} {s : OSState}
    (hf : faultAt s = false) (hw : assocFind s.posixObjs nm = none)
    (hx : flags &&& O_CREAT = 0) :
    shm_open nm flags s =
      (.error .fileNotFound,
       { s with callCount := s.callCount + 1,
                rtrace := .evShmOpen nm flags :: s.rtrace }) := by
  simp [shm_open, hf, hw, hx]

theorem ftruncate_fault {fd size : Nat} {s : OSState}
    (hf : faultAt s = true) :
    ftruncate fd size s =
      (.error .osError,
       { s with callCount := s.callCount + 1,
                rtrace := .evFtruncate fd size :: s.rtrace }) := by
  simp [ftruncate, hf]

theorem ftruncate_ok {fd size : Nat} {s : OSState} {nm : String}
    (hf : faultAt s = false) (hd : assocFind s.posixFds fd = some nm) :
    ftruncate fd size s =
      (.ok (),
       { s with callCount := s.callCount + 1,
                rtrace := .evFtruncate fd size :: s.rtrace,
                posixObjs := assocSet s.posixObjs nm size }) := by
  simp [ftruncate, hf, hd]

theorem fstat_fault {fd : Nat} {s : OSState} (hf : faultAt s = true) :
    fstat fd s =
      (.error .osError,
       { s with callCount := s.callCount + 1,
                rtrace := .evFstat fd :: s.rtrace }) := by
  simp [fstat, hf]

theorem fstat_ok {fd : Nat} {s : OSState} {nm : String} {sz : Nat}
    (hf : faultAt s = false) (hd : assocFind s.posixFds fd = some nm)
    (hp : assocFind s.posixObjs nm = some sz) :
    fstat fd s =
      (.ok sz,
       { s with callCount := s.callCount + 1,
                rtrace := .evFstat fd :: s.rtrace }) := by
  simp [fstat, hf, hd, hp]

theorem mmapFd_fault {fd size : Nat} {s : OSState} (hf : faultAt s = true) :
    mmapFd fd size s =
      (.error .osError,
       { s with callCount := s.callCount + 1,
                rtrace := .evMmapFd fd size :: s.rtrace }) := by
  simp [mmapFd, hf]

theorem mmapFd_ok {fd size : Nat} {s : OSState} (hf : faultAt s = false) :
    mmapFd fd size s =
      (.ok { id := s.nextId, size := size, tag := none, access := .write },
       { s with callCount := s.callCount + 1,
                rtrace := .evMmapFd fd size :: s.rtrace,
                nextId := s.nextId + 1 }) := by
  simp [mmapFd, hf]

theorem createFileMapping_fault {nm : String} {size : Nat} {s : OSState}
    (hf : faultAt s = true) :
    createFileMapping nm size s =
      (.error .osError,
       { s with callCount := s.callCount + 1,
                rtrace := .evCreateFileMapping nm size s.nextId :: s.rtrace }) := by
  simp [createFileMapping, hf]

theorem createFileMapping_fresh {nm : String} {size : Nat} {s : OSState}
    (hf : faultAt s = false) (hw : assocFind s.winObjs nm = none) :
    createFileMapping nm size s =
      (.ok s.nextId,
       { s with callCount := s.callCount + 1,
                rtrace := .evCreateFileMapping nm size s.nextId :: s.rtrace,
                winObjs := (nm, { size := size, handles := 1, views := 0 }) :: s.winObjs,
                winHandles := (s.nextId, nm) :: s.winHandles,
                nextId := s.nextId + 1,
                lastError := 0 }) := by
  simp [createFileMapping, hf, hw]

theorem createFileMapping_exists {nm : String} {size : Nat} {s : OSState} {o : ShmObj}
    (hf : faultAt s = false) (hw : assocFind s.winObjs nm = some o) :
    createFileMapping nm size s =
      (.ok s.nextId,
       { s with callCount := s.callCount + 1,
                rtrace := .evCreateFileMapping nm size s.nextId :: s.rtrace,
                winObjs := assocSet s.winObjs nm { o with handles := o.handles + 1 },
                winHandles := (s.nextId, nm) :: s.winHandles,
                nextId := s.nextId + 1,
                lastError := ERROR_ALREADY_EXISTS }) := by
  simp [createFileMapping, hf, hw]

theorem closeHandle_rtrace (h : Nat) (s : OSState) :
    (closeHandle h s).rtrace = .evCloseHandle h :: s.rtrace := by
  simp only [closeHandle]
  split
  · rfl
  · split
    · rfl
    · split <;> rfl

theorem closeHandle_dead {h : Nat} {s : OSState} {nm : String} {o : ShmObj}
    (hh : assocFind s.winHandles h = some nm)
    (hw : assocFind s.winObjs nm = some o)
    (hz : o.handles - 1 = 0 ∧ o.views = 0) :
    closeHandle h s =
      { s with rtrace := .evCloseHandle h :: s.rtrace,
               winHandles := assocRemove s.winHandles h,
               winObjs := assocRemove s.winObjs nm } := by
  simp [closeHandle, hh, hw, hz.1, hz.2]

theorem closeHandle_live {h : Nat} {s : OSState} {nm : String} {o : ShmObj}
    (hh : assocFind s.winHandles h = some nm)
    (hw : assocFind s.winObjs nm = some o)
    (hz : ¬(o.handles - 1 = 0 ∧ o.views = 0)) :
    closeHandle h s =
      { s with rtrace := .evCloseHandle h :: s.rtrace,
               winHandles := assocRemove s.winHandles h,
               winObjs := assocSet s.winObjs nm { o with handles := o.handles - 1 } } := by
  simp only [closeHandle, hh, hw]
  rw [if_neg]
  exact hz

theorem winMmapTag_fault {size : Nat} {tag : String} {acc : Access} {s : OSState}
    (hf : faultAt s = true) :
    winMmapTag size tag acc s =
      (.error .osError,
       { s with callCount := s.callCount + 1,
                rtrace := .evMmapTag s.nextId size tag acc :: s.rtrace }) := by
  simp [winMmapTag, hf]

theorem winMmapTag_exists {size : Nat} {tag : String} {acc : Access} {s : OSState}
    {o : ShmObj} (hf : faultAt s = false) (hw : assocFind s.winObjs tag = some o) :
    winMmapTag size tag acc s =
      (.ok { id := s.nextId, size := size, tag := some tag, access := acc },
       { s with callCount := s.callCount + 1,
                rtrace := .evMmapTag s.nextId size tag acc :: s.rtrace,
                winObjs := assocSet s.winObjs tag { o with views := o.views + 1 },
                nextId := s.nextId + 1 }) := by
  simp [winMmapTag, hf, hw]

theorem winMmapTag_fresh {size : Nat} {tag : String} {acc : Access} {s : OSState}
    (hf : faultAt s = false) (hw : assocFind s.winObjs tag = none) :
    winMmapTag size tag acc s =
      (.ok { id := s.nextId, size := size, tag := some tag, access := acc },
       { s with callCount := s.callCount + 1,
                rtrace := .evMmapTag s.nextId size tag acc :: s.rtrace,
                winObjs := (tag, { size := size, handles := 0, views := 1 }) :: s.winObjs,
                nextId := s.nextId + 1 }) := by
  simp [winMmapTag, hf, hw]

theorem openFileMapping_fault {nm : String} {s : OSState}
    (hf : faultAt s = true) :
    openFileMapping nm s =
      (.error .osError,
       { s with callCount := s.callCount + 1,
                rtrace := .evOpenFileMapping nm s.nextId :: s.rtrace }) := by
  simp [openFileMapping, hf]

theorem openFileMapping_exists {nm : String} {s : OSState} {o : ShmObj}
    (hf : faultAt s = false) (hw : assocFind s.winObjs nm = some o) :
    openFileMapping nm s =
      (.ok s.nextId,
       { s with callCount := s.callCount + 1,
                rtrace := .evOpenFileMapping nm s.nextId :: s.rtrace,
                winObjs := assocSet s.winObjs nm { o with handles := o.handles + 1 },
                winHandles := (s.nextId, nm) :: s.winHandles,
                nextId := s.nextId + 1 }) := by
  simp [openFileMapping, hf, hw]

theorem openFileMapping_absent {nm : String} {s : OSState}
    (hf : faultAt s = false) (hw : assocFind s.winObjs nm = none) :
    openFileMapping nm s =
      (.error .fileNotFound,
       { s with callCount := s.callCount + 1,
                rtrace := .evOpenFileMapping nm s.nextId :: s.rtrace }) := by
  simp [openFileMapping, hf, hw]

theorem mapViewOfFile_fault {h : Nat} {s : OSState} (hf : faultAt s = true) :
    mapViewOfFile h s =
      (.error .osError,
       { s with callCount := s.callCount + 1,
                rtrace := .evMapViewOfFile h s.nextId :: s.rtrace }) := by
  simp [mapViewOfFile, hf]

theorem mapViewOfFile_ok {h : Nat} {s : OSState} {nm : String} {o : ShmObj}
    (hf : faultAt s = false) (hh : assocFind s.winHandles h = some nm)
    (hw : assocFind s.winObjs nm = some o) :
    mapViewOfFile h s =
      (.ok s.nextId,
       { s with callCount := s.callCount + 1,
                rtrace := .evMapViewOfFile h s.nextId :: s.rtrace,
                winObjs := assocSet s.winObjs nm { o with views := o.views + 1 },
                winPtrs := (s.nextId, nm) :: s.winPtrs,
                nextId := s.nextId + 1 }) := by
  simp [mapViewOfFile, hf, hh, hw]

theorem virtualQuerySize_fault {p : Nat} {s : OSState} (hf : faultAt s = true) :
    virtualQuerySize p s =
      (.error .osError,
       { s with callCount := s.callCount + 1,
                rtrace := .evVirtualQuerySize p :: s.rtrace }) := by
  simp [virtualQuerySize, hf]

theorem virtualQuerySize_ok {p : Nat} {s : OSState} {nm : String} {o : ShmObj}
    (hf : faultAt s = false) (hp : assocFind s.winPtrs p = some nm)
    (hw : assocFind s.winObjs nm = some o) :
    virtualQuerySize p s =
      (.ok o.size,
       { s with callCount := s.callCount + 1,
                rtrace := .evVirtualQuerySize p :: s.rtrace }) := by
  simp [virtualQuerySize, hf, hp, hw]

theorem unmapViewOfFile_rtrace (p : Nat) (s : OSState) :
    (unmapViewOfFile p s).rtrace = .evUnmapViewOfFile p :: s.rtrace := by
  simp only [unmapViewOfFile]
  split
  · rfl
  · split
    · rfl
    · split <;> rfl

theorem unmapViewOfFile_dead {p : Nat} {s : OSState} {nm : String} {o : ShmObj}
    (hp : assocFind s.winPtrs p = some nm)
    (hw : assocFind s.winObjs nm = some o)
    (hz : o.handles = 0 ∧ o.views - 1 = 0) :
    unmapViewOfFile p s =
      { s with rtrace := .evUnmapViewOfFile p :: s.rtrace,
               winPtrs := assocRemove s.winPtrs p,
               winObjs := assocRemove s.winObjs nm } := by
  simp [unmapViewOfFile, hp, hw, hz.1, hz.2]

theorem unmapViewOfFile_live {p : Nat} {s : OSState} {nm : String} {o : ShmObj}
    (hp : assocFind s.winPtrs p = some nm)
    (hw : assocFind s.winObjs nm = some o)
    (hz : ¬(o.handles = 0 ∧ o.views - 1 = 0)) :
    unmapViewOfFile p s =
      { s with rtrace := .evUnmapViewOfFile p :: s.rtrace,
               winPtrs := assocRemove s.winPtrs p,
               winObjs := assocSet s.winObjs nm { o with views := o.views - 1 } } := by
  simp only [unmapViewOfFile, hp, hw]
  rw [if_neg]
  exact hz

theorem assocRemove_assocSet {κ α : Type} [DecidableEq κ]
    (l : List (κ × α)) (k : κ) (v : α) :
    assocRemove (assocSet l k v) k = assocRemove l k := by
  induction l with
  | nil => simp [assocSet, assocRemove]
  | cons p t ih =>
    obtain ⟨k1, v1⟩ := p
    by_cases hk : k1 = k
    · subst hk; simp [assocSet, assocRemove]
    · simp only [assocSet, assocRemove, if_neg hk]
      exact congrArg (List.cons (k1, v1)) ih

theorem winCreateNamed_fault {n : String} {size flags : Nat} {s : OSState}
    (hf : faultAt s = true) :
    winCreateNamed n size flags s =
      (.error .osError,
       { s with callCount := s.callCount + 1,
                rtrace := .evCreateFileMapping n size s.nextId :: s.rtrace }) := by
  unfold winCreateNamed
  rw [createFileMapping_fault hf]

theorem winCreateNamed_collision {n : String} {size flags : Nat} {s : OSState}
    {o : ShmObj} (hf : faultAt s = false) (hw : assocFind s.winObjs n = some o)
    (hlive : 0 < o.handles + o.views) :
    winCreateNamed n size flags s =
      (.error .fileExists,
       { s with callCount := s.callCount + 1,
                rtrace := .evCloseHandle s.nextId ::
                          .evCreateFileMapping n size s.nextId :: s.rtrace,
                nextId := s.nextId + 1,
                lastError := ERROR_ALREADY_EXISTS }) := by
  unfold winCreateNamed
  rw [createFileMapping_exists hf hw]
  simp only [ERROR_ALREADY_EXISTS, if_pos rfl]
  rw [closeHandle_live (assocFind_cons_self _ _ _)
        (assocFind_assocSet_self { o with handles := o.handles + 1 } hw)
        (by simp; omega)]
  simp only [assocRemove_cons_self, assocSet_assocSet]
  rw [show ({ o with handles := o.handles + 1 } : ShmObj).handles - 1 = o.handles by simp]
  rw [assocSet_eq_self hw]
  simp

theorem winCreateNamed_mmapFault {n : String} {size flags : Nat} {s : OSState}
    (hf : faultAt s = false) (hw : assocFind s.winObjs n = none)
    (hf2 : s.faults.getD (s.callCount + 1) false = true) :
    winCreateNamed n size flags s =
      (.error .osError,
       { s with callCount := s.callCount + 1 + 1,
                rtrace := .evCloseHandle s.nextId ::
                          .evMmapTag (s.nextId + 1) size n .read ::
                          .evCreateFileMapping n size s.nextId :: s.rtrace,
                nextId := s.nextId + 1,
                lastError := 0 }) := by
  unfold winCreateNamed
  rw [createFileMapping_fresh hf hw]
  simp only [ERROR_ALREADY_EXISTS]
  rw [if_neg (by norm_num)]
  rw [winMmapTag_fault (by exact hf2)]
  dsimp only
  rw [closeHandle_dead (assocFind_cons_self _ _ _) (assocFind_cons_self _ _ _)
        (by constructor <;> rfl)]
  simp [assocRemove_cons_self]

theorem winCreateNamed_success {n : String} {size flags : Nat} {s : OSState}
    (hf : faultAt s = false) (hw : assocFind s.winObjs n = none)
    (hf2 : s.faults.getD (s.callCount + 1) false = false) :
    winCreateNamed n size flags s =
      (.ok { name := n, size := size,
             mmapObj := { id := s.nextId + 1, size := size, tag := some n,
                          access := .read },
             flags := flags },
       { s with callCount := s.callCount + 1 + 1,
                rtrace := .evCloseHandle s.nextId ::
                          .evMmapTag (s.nextId + 1) size n .read ::
                          .evCreateFileMapping n size s.nextId :: s.rtrace,
                winObjs := (n, { size := size, handles := 0, views := 1 }) :: s.winObjs,
                nextId := s.nextId + 1 + 1,
                lastError := 0 }) := by
  unfold winCreateNamed
  rw [createFileMapping_fresh hf hw]
  simp only [ERROR_ALREADY_EXISTS]
  rw [if_neg (by norm_num)]
  rw [winMmapTag_exists (by exact hf2) (assocFind_cons_self _ _ _)]
  dsimp only
  simp only [assocSet, if_pos rfl]
  rw [closeHandle_live (assocFind_cons_self _ _ _) (assocFind_cons_self _ _ _)
        (by simp)]
  simp [assocRemove_cons_self, assocSet]

theorem winCreateAttemptAuto_fault {tn : String} {size flags : Nat} {s : OSState}
    (hf : faultAt s = true) :
    winCreateAttemptAuto tn size flags s =
      (.error .osError,
       { s with callCount := s.callCount + 1,
                rtrace := .evCreateFileMapping tn size s.nextId :: s.rtrace }) := by
  unfold winCreateAttemptAuto
  rw [createFileMapping_fault hf]

theorem winCreateAttemptAuto_collision_fst {tn : String} {size flags : Nat}
    {s : OSState} {o : ShmObj} (hf : faultAt s = false)
    (hw : assocFind s.winObjs tn = some o) :
    (winCreateAttemptAuto tn size flags s).1 = .ok none := by
  unfold winCreateAttemptAuto
  rw [createFileMapping_exists hf hw]
  dsimp only
  rw [if_pos rfl]

theorem winCreateAttemptAuto_collision {tn : String} {size flags : Nat} {s : OSState}
    {o : ShmObj} (hf : faultAt s = false) (hw : assocFind s.winObjs tn = some o)
    (hlive : 0 < o.handles + o.views) :
    winCreateAttemptAuto tn size flags s =
      (.ok none,
       { s with callCount := s.callCount + 1,
                rtrace := .evCloseHandle s.nextId ::
                          .evCreateFileMapping tn size s.nextId :: s.rtrace,
                nextId := s.nextId + 1,
                lastError := ERROR_ALREADY_EXISTS }) := by
  unfold winCreateAttemptAuto
  rw [createFileMapping_exists hf hw]
  simp only [ERROR_ALREADY_EXISTS, if_pos rfl]
  rw [closeHandle_live (assocFind_cons_self _ _ _)
        (assocFind_assocSet_self { o with handles := o.handles + 1 } hw)
        (by simp; omega)]
  simp only [assocRemove_cons_self, assocSet_assocSet]
  rw [show ({ o with handles := o.handles + 1 } : ShmObj).handles - 1 = o.handles by simp]
  rw [assocSet_eq_self hw]
  simp

theorem winCreateAttemptAuto_mmapFault {tn : String} {size flags : Nat} {s : OSState}
    (hf : faultAt s = false) (hw : assocFind s.winObjs tn = none)
    (hf2 : s.faults.getD (s.callCount + 1) false = true) :
    winCreateAttemptAuto tn size flags s =
      (.error .osError,
       { s with callCount := s.callCount + 1 + 1,
                rtrace := .evCloseHandle s.nextId ::
                          .evMmapTag (s.nextId + 1) size tn .read ::
                          .evCreateFileMapping tn size s.nextId :: s.rtrace,
                nextId := s.nextId + 1,
                lastError := 0 }) := by
  unfold winCreateAttemptAuto
  rw [createFileMapping_fresh hf hw]
  simp only [ERROR_ALREADY_EXISTS]
  rw [if_neg (by norm_num)]
  rw [winMmapTag_fault (by exact hf2)]
  dsimp only
  rw [closeHandle_dead (assocFind_cons_self _ _ _) (assocFind_cons_self _ _ _)
        (by constructor <;> rfl)]
  simp [assocRemove_cons_self]

theorem winCreateAttemptAuto_success {tn : String} {size flags : Nat} {s : OSState}
    (hf : faultAt s = false) (hw : assocFind s.winObjs tn = none)
    (hf2 : s.faults.getD (s.callCount + 1) false = false) :
    winCreateAttemptAuto tn size flags s =
      (.ok (some { name := tn, size := size,
                   mmapObj := { id := s.nextId + 1, size := size, tag := some tn,
                                access := .read },
                   flags := flags }),
       { s with callCount := s.callCount + 1 + 1,
                rtrace := .evCloseHandle s.nextId ::
                          .evMmapTag (s.nextId + 1) size tn .read ::
                          .evCreateFileMapping tn size s.nextId :: s.rtrace,
                winObjs := (tn, { size := size, handles := 0, views := 1 }) :: s.winObjs,
                nextId := s.nextId + 1 + 1,
                lastError := 0 }) := by
  unfold winCreateAttemptAuto
  rw [createFileMapping_fresh hf hw]
  simp only [ERROR_ALREADY_EXISTS]
  rw [if_neg (by norm_num)]
  rw [winMmapTag_exists (by exact hf2) (assocFind_cons_self _ _ _)]
  dsimp only
  simp only [assocSet, if_pos rfl]
  rw [closeHandle_live (assocFind_cons_self _ _ _) (assocFind_cons_self _ _ _)
        (by simp)]
  simp [assocRemove_cons_self, assocSet]

theorem winAttach_fault {n : String} {flags : Nat} {s : OSState}
    (hf : faultAt s = true) :
    winAttach n flags s =
      (.error .osError,
       { s with callCount := s.callCount + 1,
                rtrace := .evOpenFileMapping n s.nextId :: s.rtrace }) := by
  unfold winAttach
  rw [openFileMapping_fault hf]

theorem winAttach_absent {n : String} {flags : Nat} {s : OSState}
    (hf : faultAt s = false) (hw : assocFind s.winObjs n = none) :
    winAttach n flags s =
      (.error .fileNotFound,
       { s with callCount := s.callCount + 1,
                rtrace := .evOpenFileMapping n s.nextId :: s.rtrace }) := by
  unfold winAttach
  rw [openFileMapping_absent hf hw]

theorem winAttach_mapViewFault_fst {n : String} {flags : Nat} {s : OSState}
    {o : ShmObj} (hf : faultAt s = false) (hw : assocFind s.winObjs n = some o)
    (hf2 : s.faults.getD (s.callCount + 1) false = true) :
    (winAttach n flags s).1 = .error .osError := by
  unfold winAttach
  rw [openFileMapping_exists hf hw]
  dsimp only
  rw [mapViewOfFile_fault (by exact hf2)]

theorem winAttach_vqsFault_fst {n : String} {flags : Nat} {s : OSState}
    {o : ShmObj} (hf : faultAt s = false) (hw : assocFind s.winObjs n = some o)
    (hf2 : s.faults.getD (s.callCount + 1) false = false)
    (hf3 : s.faults.getD (s.callCount + 1 + 1) false = true) :
    (winAttach n flags s).1 = .error .osError := by
  unfold winAttach
  rw [openFileMapping_exists hf hw]
  dsimp only
  rw [mapViewOfFile_ok (by exact hf2) (assocFind_cons_self _ _ _)
        (assocFind_assocSet_self { o with handles := o.handles + 1 } hw)]
  dsimp only
  rw [closeHandle_live (assocFind_cons_self _ _ _)
        (assocFind_assocSet_self _ (assocFind_assocSet_self { o with handles := o.handles + 1 } hw))
        (by simp)]
  rw [virtualQuerySize_fault (by exact hf3)]

theorem winAttach_mmapFault_fst {n : String} {flags : Nat} {s : OSState}
    {o : ShmObj} (hf : faultAt s = false) (hw : assocFind s.winObjs n = some o)
    (hf2 : s.faults.getD (s.callCount + 1) false = false)
    (hf3 : s.faults.getD (s.callCount + 1 + 1) false = false)
    (hf4 : s.faults.getD (s.callCount + 1 + 1 + 1) false = true) :
    (winAttach n flags s).1 = .error .osError := by
  unfold winAttach
  rw [openFileMapping_exists hf hw]
  dsimp only
  rw [mapViewOfFile_ok (by exact hf2) (assocFind_cons_self _ _ _)
        (assocFind_assocSet_self { o with handles := o.handles + 1 } hw)]
  dsimp only
  rw [closeHandle_live (assocFind_cons_self _ _ _)
        (assocFind_assocSet_self _ (assocFind_assocSet_self { o with handles := o.handles + 1 } hw))
        (by simp)]
  rw [virtualQuerySize_ok (by exact hf3) (assocFind_cons_self _ _ _)
        (assocFind_assocSet_self _ (assocFind_assocSet_self _
          (assocFind_assocSet_self { o with handles := o.handles + 1 } hw)))]
  dsimp only
  rw [winMmapTag_fault (by exact hf4)]

theorem winAttach_success {n : String} {flags : Nat} {s : OSState}
    {o : ShmObj} (hf : faultAt s = false) (hw : assocFind s.winObjs n = some o)
    (hf2 : s.faults.getD (s.callCount + 1) false = false)
    (hf3 : s.faults.getD (s.callCount + 1 + 1) false = false)
    (hf4 : s.faults.getD (s.callCount + 1 + 1 + 1) false = false) :
    winAttach n flags s =
      (.ok { name := n, size := o.size,
             mmapObj := { id := s.nextId + 1 + 1, size := o.size, tag := some n,
                          access := .write },
             flags := flags },
       { s with callCount := s.callCount + 1 + 1 + 1 + 1,
                rtrace := .evUnmapViewOfFile (s.nextId + 1) ::
                          .evMmapTag (s.nextId + 1 + 1) o.size n .write ::
                          .evVirtualQuerySize (s.nextId + 1) ::
                          .evCloseHandle s.nextId ::
                          .evMapViewOfFile s.nextId (s.nextId + 1) ::
                          .evOpenFileMapping n s.nextId :: s.rtrace,
                winObjs := assocSet s.winObjs n { o with views := o.views + 1 },
                nextId := s.nextId + 1 + 1 + 1 }) := by
  unfold winAttach
  rw [openFileMapping_exists hf hw]
  dsimp only
  rw [mapViewOfFile_ok (by exact hf2) (assocFind_cons_self _ _ _)
        (assocFind_assocSet_self { o with handles := o.handles + 1 } hw)]
  dsimp only
  rw [closeHandle_live (assocFind_cons_self _ _ _)
        (assocFind_assocSet_self _ (assocFind_assocSet_self { o with handles := o.handles + 1 } hw))
        (by simp)]
  rw [virtualQuerySize_ok (by exact hf3) (assocFind_cons_self _ _ _)
        (assocFind_assocSet_self _ (assocFind_assocSet_self _
          (assocFind_assocSet_self { o with handles := o.handles + 1 } hw)))]
  dsimp only
  rw [winMmapTag_exists (by exact hf4)
        (assocFind_assocSet_self _ (assocFind_assocSet_self _
          (assocFind_assocSet_self { o with handles := o.handles + 1 } hw)))]
  dsimp only
  rw [unmapViewOfFile_live (assocFind_cons_self _ _ _)
        (assocFind_assocSet_self _ (assocFind_assocSet_self _ (assocFind_assocSet_self _
          (assocFind_assocSet_self { o with handles := o.handles + 1 } hw))))
        (by simp)]
  simp only [assocRemove_cons_self, assocSet_assocSet]
  simp

theorem posixBody_create_ftruncateFault {flags size fd : Nat} {nm : String}
    {s : OSState} (hsz : size ≠ 0) (hf1 : faultAt s = true) :
    posixBody flags true size fd nm s =
      (.error .osError,
       { s with posixObjs := assocRemove s.posixObjs nm,
                registered := removeFirst s.registered (nm, "shared_memory"),
                callCount := s.callCount + 1,
                rtrace := .evUnregister nm "shared_memory" :: .evShmUnlink nm ::
                          .evFtruncate fd size :: s.rtrace }) := by
  unfold posixBody
  rw [if_pos ⟨rfl, hsz⟩]
  rw [ftruncate_fault hf1]
  dsimp only
  simp [selfUnlink]

theorem posixBody_create_fstatFault {flags size fd : Nat} {nm : String}
    {s : OSState} (hsz : size ≠ 0) (hf1 : faultAt s = false)
    (hfd : assocFind s.posixFds fd = some nm)
    (hf2 : s.faults.getD (s.callCount + 1) false = true) :
    posixBody flags true size fd nm s =
      (.error .osError,
       { s with posixObjs := assocRemove s.posixObjs nm,
                registered := removeFirst s.registered (nm, "shared_memory"),
                callCount := s.callCount + 1 + 1,
                rtrace := .evUnregister nm "shared_memory" :: .evShmUnlink nm ::
                          .evFstat fd :: .evFtruncate fd size :: s.rtrace }) := by
  unfold posixBody
  rw [if_pos ⟨rfl, hsz⟩]
  rw [ftruncate_ok hf1 hfd]
  dsimp only
  rw [fstat_fault (by exact hf2)]
  dsimp only
  simp [selfUnlink, assocRemove_assocSet]

theorem posixBody_create_mmapFault {flags size fd : Nat} {nm : String} {v0 : Nat}
    {s : OSState} (hsz : size ≠ 0) (hf1 : faultAt s = false)
    (hfd : assocFind s.posixFds fd = some nm)
    (hpo : assocFind s.posixObjs nm = some v0)
    (hf2 : s.faults.getD (s.callCount + 1) false = false)
    (hf3 : s.faults.getD (s.callCount + 1 + 1) false = true) :
    posixBody flags true size fd nm s =
      (.error .osError,
       { s with posixObjs := assocRemove s.posixObjs nm,
                registered := removeFirst s.registered (nm, "shared_memory"),
                callCount := s.callCount + 1 + 1 + 1,
                rtrace := .evUnregister nm "shared_memory" :: .evShmUnlink nm ::
                          .evMmapFd fd size :: .evFstat fd ::
                          .evFtruncate fd size :: s.rtrace }) := by
  unfold posixBody
  rw [if_pos ⟨rfl, hsz⟩]
  rw [ftruncate_ok hf1 hfd]
  dsimp only
  rw [fstat_ok (by exact hf2) (by exact hfd) (assocFind_assocSet_self size hpo)]
  dsimp only
  rw [mmapFd_fault (by exact hf3)]
  dsimp only
  simp [selfUnlink, assocRemove_assocSet]

theorem posixBody_create_success {flags size fd : Nat} {nm : String} {v0 : Nat}
    {s : OSState} (hsz : size ≠ 0) (hf1 : faultAt s = false)
    (hfd : assocFind s.posixFds fd = some nm)
    (hpo : assocFind s.posixObjs nm = some v0)
    (hf2 : s.faults.getD (s.callCount + 1) false = false)
    (hf3 : s.faults.getD (s.callCount + 1 + 1) false = false) :
    posixBody flags true size fd nm s =
      (.ok { name := nm, size := size,
             mmapObj := { id := s.nextId, size := size, tag := none, access := .write },
             flags := flags },
       { s with posixObjs := assocSet s.posixObjs nm size,
                registered := (nm, "shared_memory") :: s.registered,
                callCount := s.callCount + 1 + 1 + 1,
                rtrace := .evRegister nm "shared_memory" :: .evMmapFd fd size ::
                          .evFstat fd :: .evFtruncate fd size :: s.rtrace,
                nextId := s.nextId + 1 }) := by
  unfold posixBody
  rw [if_pos ⟨rfl, hsz⟩]
  rw [ftruncate_ok hf1 hfd]
  dsimp only
  rw [fstat_ok (by exact hf2) (by exact hfd) (assocFind_assocSet_self size hpo)]
  dsimp only
  rw [mmapFd_ok (by exact hf3)]
  dsimp only
  simp [register]

theorem posixBody_attach_fstatFault {flags size fd : Nat} {nm : String}
    {s : OSState} (hf1 : faultAt s = true) :
    posixBody flags false size fd nm s =
      (.error .osError,
       { s with posixObjs := assocRemove s.posixObjs nm,
                registered := removeFirst s.registered (nm, "shared_memory"),
                callCount := s.callCount + 1,
                rtrace := .evUnregister nm "shared_memory" :: .evShmUnlink nm ::
                          .evFstat fd :: s.rtrace }) := by
  unfold posixBody
  rw [if_neg (by simp)]
  dsimp only
  rw [fstat_fault hf1]
  dsimp only
  simp [selfUnlink]

theorem posixBody_attach_mmapFault {flags size fd : Nat} {nm : String} {sz : Nat}
    {s : OSState} (hf1 : faultAt s = false)
    (hfd : assocFind s.posixFds fd = some nm)
    (hpo : assocFind s.posixObjs nm = some sz)
    (hf2 : s.faults.getD (s.callCount + 1) false = true) :
    posixBody flags false size fd nm s =
      (.error .osError,
       { s with posixObjs := assocRemove s.posixObjs nm,
                registered := removeFirst s.registered (nm, "shared_memory"),
                callCount := s.callCount + 1 + 1,
                rtrace := .evUnregister nm "shared_memory" :: .evShmUnlink nm ::
                          .evMmapFd fd sz :: .evFstat fd :: s.rtrace }) := by
  unfold posixBody
  rw [if_neg (by simp)]
  dsimp only
  rw [fstat_ok hf1 hfd hpo]
  dsimp only
  rw [mmapFd_fault (by exact hf2)]
  dsimp only
  simp [selfUnlink]

theorem posixBody_attach_success {flags size fd : Nat} {nm : String} {sz : Nat}
    {s : OSState} (hf1 : faultAt s = false)
    (hfd : assocFind s.posixFds fd = some nm)
    (hpo : assocFind s.posixObjs nm = some sz)
    (hf2 : s.faults.getD (s.callCount + 1) false = false) :
    posixBody flags false size fd nm s =
      (.ok { name := nm, size := sz,
             mmapObj := { id := s.nextId, size := sz, tag := none, access := .write },
             flags := flags },
       { s with registered := (nm, "shared_memory") :: s.registered,
                callCount := s.callCount + 1 + 1,
                rtrace := .evRegister nm "shared_memory" :: .evMmapFd fd sz ::
                          .evFstat fd :: s.rtrace,
                nextId := s.nextId + 1 }) := by
  unfold posixBody
  rw [if_neg (by simp)]
  dsimp only
  rw [fstat_ok hf1 hfd hpo]
  dsimp only
  rw [mmapFd_ok (by exact hf2)]
  dsimp only
  simp [register]

theorem createFileMapping_ok_spec {nm : String} {size : Nat} {s : OSState}
    {hh : Nat} {t : OSState} (h : createFileMapping nm size s = (.ok hh, t)) :
    hh = s.nextId ∧ t.nextId = s.nextId + 1 ∧
    t.rtrace = .evCreateFileMapping nm size hh :: s.rtrace := by
  by_cases hf : faultAt s = true
  · rw [createFileMapping_fault hf] at h
    exact absurd h (by simp)
  · rw [Bool.not_eq_true] at hf
    cases hw : assocFind s.winObjs nm with
    | some o =>
      rw [createFileMapping_exists hf hw] at h
      simp only [Prod.mk.injEq, Except.ok.injEq] at h
      obtain ⟨h1, h2⟩ := h
      subst h1; subst h2
      exact ⟨rfl, rfl, rfl⟩
    | none =>
      rw [createFileMapping_fresh hf hw] at h
      simp only [Prod.mk.injEq, Except.ok.injEq] at h
      obtain ⟨h1, h2⟩ := h
      subst h1; subst h2
      exact ⟨rfl, rfl, rfl⟩

theorem winMmapTag_ok_spec {size : Nat} {tag : String} {acc : Access}
    {s : OSState} {m : MMapObj} {t : OSState}
    (h : winMmapTag size tag acc s = (.ok m, t)) :
    m = { id := s.nextId, size := size, tag := some tag, access := acc } ∧
    t.rtrace = .evMmapTag s.nextId size tag acc :: s.rtrace := by
  by_cases hf : faultAt s = true
  · rw [winMmapTag_fault hf] at h
    exact absurd h (by simp)
  · rw [Bool.not_eq_true] at hf
    cases hw : assocFind s.winObjs tag with
    | some o =>
      rw [winMmapTag_exists hf hw] at h
      simp only [Prod.mk.injEq, Except.ok.injEq] at h
      obtain ⟨h1, h2⟩ := h
      subst h1; subst h2
      exact ⟨rfl, rfl⟩
    | none =>
      rw [winMmapTag_fresh hf hw] at h
      simp only [Prod.mk.injEq, Except.ok.injEq] at h
      obtain ⟨h1, h2⟩ := h
      subst h1; subst h2
      exact ⟨rfl, rfl⟩

theorem winCreateNamed_ok_spec {n : String} {size flags : Nat} {s : OSState}
    {hd : SHandle} {s2 : OSState}
    (h : winCreateNamed n size flags s = (.ok hd, s2)) :
    hd.name = n ∧ hd.size = size ∧ hd.mmapObj.access = .read ∧
    ∃ hh rest, s2.rtrace = .evCloseHandle hh ::
      .evMmapTag hd.mmapObj.id size n .read ::
      .evCreateFileMapping n size hh :: rest ∧ hd.mmapObj.id ≠ hh := by
  unfold winCreateNamed at h
  cases hc : createFileMapping n size s with
  | mk r1 t1 =>
    rw [hc] at h
    cases r1 with
    | error e => exact absurd h (by simp)
    | ok h1 =>
      dsimp only at h
      by_cases hle : t1.lastError = ERROR_ALREADY_EXISTS
      · rw [if_pos hle] at h
        exact absurd h (by simp)
      · rw [if_neg hle] at h
        cases hm : winMmapTag size n .read t1 with
        | mk r2 t2 =>
          rw [hm] at h
          cases r2 with
          | error e => exact absurd h (by simp)
          | ok m =>
            dsimp only at h
            simp only [Prod.mk.injEq, Except.ok.injEq] at h
            obtain ⟨h1eq, h2eq⟩ := h
            subst h1eq; subst h2eq
            obtain ⟨hcf1, hcf2, hcf3⟩ := createFileMapping_ok_spec hc
            obtain ⟨hm1, hm2⟩ := winMmapTag_ok_spec hm
            subst hm1
            refine ⟨rfl, rfl, rfl, h1, s.rtrace, ?_, ?_⟩
            · rw [closeHandle_rtrace, hm2, hcf3]
            · simp only [hcf1, hcf2]
              omega

theorem winCreateAttemptAuto_ok_spec {tn : String} {size flags : Nat} {s : OSState}
    {hd : SHandle} {s2 : OSState}
    (h : winCreateAttemptAuto tn size flags s = (.ok (some hd), s2)) :
    hd.name = tn ∧ hd.size = size ∧ hd.mmapObj.access = .read ∧
    ∃ hh rest, s2.rtrace = .evCloseHandle hh ::
      .evMmapTag hd.mmapObj.id size tn .read ::
      .evCreateFileMapping tn size hh :: rest ∧ hd.mmapObj.id ≠ hh := by
  unfold winCreateAttemptAuto at h
  cases hc : createFileMapping tn size s with
  | mk r1 t1 =>
    rw [hc] at h
    cases r1 with
    | error e => exact absurd h (by simp)
    | ok h1 =>
      dsimp only at h
      by_cases hle : t1.lastError = ERROR_ALREADY_EXISTS
      · rw [if_pos hle] at h
        exact absurd h (by simp)
      · rw [if_neg hle] at h
        cases hm : winMmapTag size tn .read t1 with
        | mk r2 t2 =>
          rw [hm] at h
          cases r2 with
          | error e => exact absurd h (by simp)
          | ok m =>
            dsimp only at h
            simp only [Prod.mk.injEq, Except.ok.injEq, Option.some.injEq] at h
            obtain ⟨h1eq, h2eq⟩ := h
            subst h1eq; subst h2eq
            obtain ⟨hcf1, hcf2, hcf3⟩ := createFileMapping_ok_spec hc
            obtain ⟨hm1, hm2⟩ := winMmapTag_ok_spec hm
            subst hm1
            refine ⟨rfl, rfl, rfl, h1, s.rtrace, ?_, ?_⟩
            · rw [closeHandle_rtrace, hm2, hcf3]
            · simp only [hcf1, hcf2]
              omega

theorem winCreateAuto_ok_spec {size flags : Nat} :
    ∀ (rand : List (List Nat)) (s : OSState) {hd : SHandle} {s2 : OSState},
      winCreateAuto size flags rand s = (.ok hd, s2) →
      hd.size = size ∧ hd.mmapObj.access = .read ∧
      ∃ hh rest, s2.rtrace = .evCloseHandle hh ::
        .evMmapTag hd.mmapObj.id size hd.name .read ::
        .evCreateFileMapping hd.name size hh :: rest ∧ hd.mmapObj.id ≠ hh := by
  intro rand
  induction rand with
  | nil =>
    intro s hd s2 h
    exact absurd h (by simp [winCreateAuto])
  | cons entropy rest ih =>
    intro s hd s2 h
    rw [winCreateAuto] at h
    cases ha : winCreateAttemptAuto (_make_filename false entropy) size flags s with
    | mk r1 t1 =>
      rw [ha] at h
      match r1 with
      | .error e => exact absurd h (by simp)
      | .ok none =>
        dsimp only at h
        exact ih t1 h
      | .ok (some hd0) =>
        dsimp only at h
        simp only [Prod.mk.injEq, Except.ok.injEq] at h
        obtain ⟨h1eq, h2eq⟩ := h
        subst h1eq; subst h2eq
        obtain ⟨ha1, ha2, ha3, hh, rest2, htr, hne⟩ := winCreateAttemptAuto_ok_spec ha
        exact ⟨ha2, ha3, hh, rest2, by rw [htr, ha1], hne⟩

theorem openFileMapping_ok_spec {nm : String} {s : OSState} {hh : Nat} {t : OSState}
    (h : openFileMapping nm s = (.ok hh, t)) :
    hh = s.nextId ∧ t.nextId = s.nextId + 1 ∧
    t.rtrace = .evOpenFileMapping nm hh :: s.rtrace := by
  by_cases hf : faultAt s = true
  · rw [openFileMapping_fault hf] at h
    exact absurd h (by simp)
  · rw [Bool.not_eq_true] at hf
    cases hw : assocFind s.winObjs nm with
    | some o =>
      rw [openFileMapping_exists hf hw] at h
      simp only [Prod.mk.injEq, Except.ok.injEq] at h
      obtain ⟨h1, h2⟩ := h
      subst h1; subst h2
      exact ⟨rfl, rfl, rfl⟩
    | none =>
      rw [openFileMapping_absent hf hw] at h
      exact absurd h (by simp)

theorem mapViewOfFile_ok_spec {hh : Nat} {s : OSState} {p : Nat} {t : OSState}
    (h : mapViewOfFile hh s = (.ok p, t)) :
    p = s.nextId ∧ t.nextId = p + 1 ∧
    t.rtrace = .evMapViewOfFile hh p :: s.rtrace := by
  unfold mapViewOfFile at h
  by_cases hf : faultAt s = true
  · simp [hf] at h
  · simp only [hf, Bool.false_eq_true, if_false] at h
    cases hh2 : assocFind s.winHandles hh with
    | some nm =>
      rw [hh2] at h
      dsimp only at h
      cases hw : assocFind s.winObjs nm with
      | some o =>
        rw [hw] at h
        simp only [Prod.mk.injEq, Except.ok.injEq] at h
        obtain ⟨h1, h2⟩ := h
        subst h1; subst h2
        exact ⟨rfl, rfl, rfl⟩
      | none =>
        rw [hw] at h
        exact absurd h (by simp)
    | none =>
      rw [hh2] at h
      exact absurd h (by simp)

theorem virtualQuerySize_ok_spec {p : Nat} {s : OSState} {sz : Nat} {t : OSState}
    (h : virtualQuerySize p s = (.ok sz, t)) :
    t.nextId = s.nextId ∧ t.rtrace = .evVirtualQuerySize p :: s.rtrace := by
  unfold virtualQuerySize at h
  by_cases hf : faultAt s = true
  · simp [hf] at h
  · simp only [hf, Bool.false_eq_true, if_false] at h
    cases hp : assocFind s.winPtrs p with
    | some nm =>
      rw [hp] at h
      dsimp only at h
      cases hw : assocFind s.winObjs nm with
      | some o =>
        rw [hw] at h
        simp only [Prod.mk.injEq, Except.ok.injEq] at h
        obtain ⟨h1, h2⟩ := h
        subst h2
        exact ⟨rfl, rfl⟩
      | none =>
        rw [hw] at h
        exact absurd h (by simp)
    | none =>
      rw [hp] at h
      exact absurd h (by simp)

theorem posixBody_ok_registered {flags size fd : Nat} {create : Bool} {nm : String}
    {s : OSState} {hd : SHandle} {s2 : OSState}
    (h : posixBody flags create size fd nm s = (.ok hd, s2)) :
    hd.name = nm ∧ (nm, "shared_memory") ∈ s2.registered ∧
    Event.evRegister nm "shared_memory" ∈ s2.rtrace := by
  unfold posixBody at h
  cases hft : (if create ∧ size ≠ 0 then ftruncate fd size s else (.ok (), s)) with
  | mk r1 t1 =>
    rw [hft] at h
    cases r1 with
    | error e => exact absurd h (by simp)
    | ok u =>
      dsimp only at h
      cases hfs : fstat fd t1 with
      | mk r2 t2 =>
        rw [hfs] at h
        cases r2 with
        | error e => exact absurd h (by simp)
        | ok sz =>
          dsimp only at h
          cases hmm : mmapFd fd sz t2 with
          | mk r3 t3 =>
            rw [hmm] at h
            cases r3 with
            | error e => exact absurd h (by simp)
            | ok m =>
              dsimp only at h
              simp only [Prod.mk.injEq, Except.ok.injEq] at h
              obtain ⟨h1, h2⟩ := h
              subst h1; subst h2
              refine ⟨rfl, ?_, ?_⟩
              · exact List.mem_cons_self _ _
              · exact List.mem_cons_self _ _

theorem init_win_create_eq (nameArg : Option String) (size : Int)
    (rand : List (List Nat)) (s : OSState) (h0 : ¬ size < 0) (hz : ¬ size = 0) :
    _SharedMemory_init false nameArg true size rand s =
      winPath nameArg true size.toNat (_O_CREX ||| O_RDWR) rand s := by
  unfold _SharedMemory_init
  rw [if_neg h0]
  dsimp only
  rw [if_neg fun hc => hz hc.2]
  rw [if_neg (by rintro ⟨h1, h2⟩; revert h2; decide)]
  rw [if_neg (by decide)]
  rfl

theorem init_posix_create_eq (nameArg : Option String) (size : Int)
    (rand : List (List Nat)) (s : OSState) (h0 : ¬ size < 0) (hz : ¬ size = 0) :
    _SharedMemory_init true nameArg true size rand s =
      posixPath nameArg true size.toNat (_O_CREX ||| O_RDWR) rand s := by
  unfold _SharedMemory_init
  rw [if_neg h0]
  dsimp only
  rw [if_neg fun hc => hz hc.2]
  rw [if_neg (by rintro ⟨h1, h2⟩; revert h2; decide)]
  rw [if_pos rfl]
  rfl

theorem init_win_attach_eq (n : String) (size : Int)
    (rand : List (List Nat)) (s : OSState) (h0 : ¬ size < 0) :
    _SharedMemory_init false (some n) false size rand s =
      winAttach n O_RDWR s := by
  unfold _SharedMemory_init
  rw [if_neg h0]
  dsimp only
  rw [if_neg (by simp)]
  rw [if_neg (by simp)]
  rw [if_neg (by decide)]
  unfold winPath
  rw [if_neg (by decide)]
  rfl

theorem init_posix_attach_eq (n : String) (size : Int)
    (rand : List (List Nat)) (s : OSState) (h0 : ¬ size < 0) :
    _SharedMemory_init true (some n) false size rand s =
      posixPath (some n) false size.toNat O_RDWR rand s := by
  unfold _SharedMemory_init
  rw [if_neg h0]
  dsimp only
  rw [if_neg (by simp)]
  rw [if_neg (by simp)]
  rw [if_pos rfl]
  rfl

/-- The empty operating-system state used by the concrete runs below. -/
def st0 : OSState :=
  { posixObjs := [], winObjs := [], registered := [], posixFds := [],
    winHandles := [], winPtrs := [], nextId := 1, lastError := 0,
    faults := [], callCount := 0, rtrace := [] }

/-- On a successful run, the view stored in self._mmap was opened with
mmap.ACCESS_READ; failed runs satisfy the property vacuously. -/
def creatorViewReadOnly : Except InitErr SHandle × OSState → Prop
  | (.ok hd, _) => hd.mmapObj.access = .read
  | (.error _, _) => True

/-- On a successful run, the last three OS calls were, in chronological
order: CreateFileMapping returning the reservation handle, the persistent
read-only mmap view of the same name and size, and CloseHandle of the
reservation handle — and the reservation handle differs from the
identifier of the persistent view.  Failed runs satisfy this vacuously. -/
def reservationClosedAfterView (size : Nat) :
    Except InitErr SHandle × OSState → Prop
  | (.ok hd, s2) => ∃ hh rest,
      s2.rtrace = .evCloseHandle hh ::
        .evMmapTag hd.mmapObj.id size hd.name .read ::
        .evCreateFileMapping hd.name size hh :: rest ∧ hd.mmapObj.id ≠ hh
  | (.error _, _) => True

/-- Whether the claim text of C2 holds of a run: a successful creation must
have produced a writable persistent view.  Failed runs count as true so
that refuting the predicate requires a successful run. -/
def persistentViewWritable (r : Except InitErr SHandle × OSState) : Bool :=
  match r.1 with
  | .ok hd => hd.mmapObj.access == Access.write
  | .error _ => true

/-- The concrete Windows-family creation run used against the literal C2
text: auto-generated name, size 8, clean state, no faults. -/
def c2run : Except InitErr SHandle × OSState :=
  _SharedMemory_init false none true 8 [[1, 2, 3, 4]] st0

/-- C9: on the Windows-family creation path the persistent mapping of the
creator is opened with mmap.ACCESS_READ, so the buffer exposed to the
creating process is a read-only view, on every successful creation run
(line 130 of the source). -/
theorem C9_creator_view_read_only (nameArg : Option String) (size : Int)
    (rand : List (List Nat)) (s : OSState) :
    creatorViewReadOnly (_SharedMemory_init false nameArg true size rand s) := by
  by_cases h0 : size < 0
  · unfold _SharedMemory_init
    rw [if_pos h0]
    trivial
  · by_cases hz : size = 0
    · unfold _SharedMemory_init
      rw [if_neg h0]
      dsimp only
      rw [if_pos ⟨rfl, hz⟩]
      trivial
    · rw [init_win_create_eq nameArg size rand s h0 hz]
      cases nameArg with
      | some n =>
        unfold winPath
        rw [if_pos rfl]
        dsimp only
        cases hr : winCreateNamed n size.toNat (_O_CREX ||| O_RDWR) s with
        | mk r1 s9 =>
          cases r1 with
          | error e => trivial
          | ok hd => exact (winCreateNamed_ok_spec hr).2.2.1
      | none =>
        unfold winPath
        rw [if_pos rfl]
        dsimp only
        cases hr : winCreateAuto size.toNat (_O_CREX ||| O_RDWR) rand s with
        | mk r1 s9 =>
          cases r1 with
          | error e => trivial
          | ok hd => exact (winCreateAuto_ok_spec rand s hr).2.1

/-- C2 counterexample: the claim says the reservation handle is closed
immediately after the process establishes its own WRITABLE persistent
view.  On a concrete successful creation run the persistent view is not
writable: it is opened with mmap.ACCESS_READ (line 130 of the source uses
access=mmap.ACCESS_READ), so the claim as stated is false of the code. -/
theorem C2_counterexample : persistentViewWritable c2run = false := by decide

/-- C2 amended: on the Windows-family creation path the reservation handle
returned by CreateFileMapping is closed immediately after the process has
established its own persistent view — which the code opens read-only, not
writable — and the reservation handle is distinct from the handle of the
persistent view. -/
theorem C2_reservation_closed_after_view (nameArg : Option String) (size : Int)
    (rand : List (List Nat)) (s : OSState) :
    reservationClosedAfterView size.toNat
      (_SharedMemory_init false nameArg true size rand s) := by
  by_cases h0 : size < 0
  · unfold _SharedMemory_init
    rw [if_pos h0]
    trivial
  · by_cases hz : size = 0
    · unfold _SharedMemory_init
      rw [if_neg h0]
      dsimp only
      rw [if_pos ⟨rfl, hz⟩]
      trivial
    · rw [init_win_create_eq nameArg size rand s h0 hz]
      cases nameArg with
      | some n =>
        unfold winPath
        rw [if_pos rfl]
        dsimp only
        cases hr : winCreateNamed n size.toNat (_O_CREX ||| O_RDWR) s with
        | mk r1 s9 =>
          cases r1 with
          | error e => trivial
          | ok hd =>
            obtain ⟨hn, hsz, hacc, hh, rest, htr, hne⟩ := winCreateNamed_ok_spec hr
            exact ⟨hh, rest, by rw [htr, hn], hne⟩
      | none =>
        unfold winPath
        rw [if_pos rfl]
        dsimp only
        cases hr : winCreateAuto size.toNat (_O_CREX ||| O_RDWR) rand s with
        | mk r1 s9 =>
          cases r1 with
          | error e => trivial
          | ok hd =>
            obtain ⟨hsz, hacc, hh, rest, htr, hne⟩ := winCreateAuto_ok_spec rand s hr
            exact ⟨hh, rest, htr, hne⟩

/-- The chronological event order of a state's trace. -/
def chronTrace (s : OSState) : List Event := s.rtrace.reverse

def isUnmapViewEv : Event → Bool
  | .evUnmapViewOfFile _ => true
  | _ => false

def isMmapTagEv : Event → Bool
  | .evMmapTag _ _ _ _ => true
  | _ => false

/-- Whether, in a chronological event list, a probe-view unmap occurs
strictly before the first persistent tagged mmap view is opened — the
order the C3 claim text asserts for the attach path. -/
def unmapBeforeMmapTag (t : List Event) : Bool :=
  match t.findIdx? isUnmapViewEv, t.findIdx? isMmapTagEv with
  | some iU, some iM => decide (iU < iM)
  | _, _ => false

def exceptIsOk {ε α : Type} : Except ε α → Bool
  | .ok _ => true
  | .error _ => false

/-- The concrete Windows-family attach run used against the literal C3
text: one pre-existing 16-byte object named x, clean state, no faults. -/
def c3run : Except InitErr SHandle × OSState :=
  _SharedMemory_init false (some "x") false 0 []
    { st0 with winObjs := [("x", { size := 16, handles := 1, views := 0 })] }

/-- On a successful Windows-family attach run the chronological tail of
the trace is: OpenFileMapping, the probe MapViewOfFile, CloseHandle of the
mapping handle, VirtualQuerySize on the probe view, the persistent
read-write tagged mmap view, and only then UnmapViewOfFile of the probe
view; failed runs satisfy this vacuously. -/
def probeViewLifecycle : Except InitErr SHandle × OSState → Prop
  | (.ok hd, s2) => ∃ p hh rest,
      s2.rtrace = .evUnmapViewOfFile p ::
        .evMmapTag hd.mmapObj.id hd.size hd.name .write ::
        .evVirtualQuerySize p :: .evCloseHandle hh ::
        .evMapViewOfFile hh p :: .evOpenFileMapping hd.name hh :: rest
  | (.error _, _) => True

/-- C3 counterexample: the claim says the probe view is unmapped BEFORE
the persistent view is opened.  On a concrete successful attach run the
probe view is unmapped only AFTER the persistent view is opened: the
UnmapViewOfFile sits in a finally clause that runs after the
mmap.mmap(-1, size, tagname=name) call of line 158. -/
theorem C3_counterexample :
    exceptIsOk c3run.1 = true ∧
    unmapBeforeMmapTag (chronTrace c3run.2) = false := by
  decide

/-- C3 amended: on the Windows-family attach path a short-lived read-only
view is opened only to query the object's size via VirtualQuerySize, and
that probe view is explicitly unmapped before the initializer returns —
but only after, not before, the second persistent view has been opened. -/
theorem C3_probe_unmapped_after_persistent (n : String) (size : Int)
    (rand : List (List Nat)) (s : OSState) :
    probeViewLifecycle (_SharedMemory_init false (some n) false size rand s) := by
  by_cases h0 : size < 0
  · unfold _SharedMemory_init
    rw [if_pos h0]
    trivial
  · rw [init_win_attach_eq n size rand s h0]
    unfold winAttach
    cases ho : openFileMapping n s with
    | mk r1 t1 =>
      cases r1 with
      | error e => trivial
      | ok h1 =>
        dsimp only
        cases hmv : mapViewOfFile h1 t1 with
        | mk r2 t2 =>
          cases r2 with
          | error e => trivial
          | ok p =>
            dsimp only
            cases hvq : virtualQuerySize p (closeHandle h1 t2) with
            | mk r3 t4 =>
              cases r3 with
              | error e => trivial
              | ok sz =>
                dsimp only
                cases hmt : winMmapTag sz n .write t4 with
                | mk r4 t5 =>
                  cases r4 with
                  | error e => trivial
                  | ok m =>
                    obtain ⟨hm1, hm2⟩ := winMmapTag_ok_spec hmt
                    obtain ⟨hv1, hv2⟩ := virtualQuerySize_ok_spec hvq
                    obtain ⟨hp1, hp2, hp3⟩ := mapViewOfFile_ok_spec hmv
                    obtain ⟨ho1, ho2, ho3⟩ := openFileMapping_ok_spec ho
                    refine ⟨p, h1, s.rtrace, ?_⟩
                    rw [unmapViewOfFile_rtrace, hm2, hv2, closeHandle_rtrace,
                        hp3, ho3]
                    rw [hm1]

/-- On a successful POSIX-family run the new name was registered with the
resource tracker under category shared_memory; failed runs satisfy this
vacuously. -/
def posixRegisterDone : Except InitErr SHandle × OSState → Prop
  | (.ok hd, s2) => (hd.name, "shared_memory") ∈ s2.registered ∧
      Event.evRegister hd.name "shared_memory" ∈ s2.rtrace
  | (.error _, _) => True

/-- C10: on the POSIX family, register(name, shared_memory) is called on
every successful open — the call at lines 98-99 of the source sits after
the try block and outside any create-only branch, so the attach path
(create=false) registers exactly like the creation path. -/
theorem C10_register_on_every_open (nameArg : Option String) (create : Bool)
    (size : Int) (rand : List (List Nat)) (s : OSState) :
    posixRegisterDone (_SharedMemory_init true nameArg create size rand s) := by
  unfold _SharedMemory_init
  by_cases h0 : size < 0
  · rw [if_pos h0]
    trivial
  · rw [if_neg h0]
    dsimp only
    by_cases hc1 : create = true ∧ size = 0
    · rw [if_pos hc1]
      trivial
    · rw [if_neg hc1]
      by_cases hc2 : nameArg = none ∧
          (if create then _O_CREX ||| O_RDWR else O_RDWR) &&& O_EXCL = 0
      · rw [if_pos hc2]
        trivial
      · rw [if_neg hc2]
        rw [if_pos rfl]
        generalize (if create then _O_CREX ||| O_RDWR else O_RDWR) = fl
        cases nameArg with
        | some n =>
          unfold posixPath
          dsimp only
          cases hso : shm_open ("/" ++ n) fl s with
          | mk r1 t1 =>
            cases r1 with
            | error e => trivial
            | ok fd =>
              dsimp only
              cases hb : posixBody fl create size.toNat fd ("/" ++ n) t1 with
              | mk r2 t2 =>
                cases r2 with
                | error e => trivial
                | ok hd =>
                  obtain ⟨h1, h2, h3⟩ := posixBody_ok_registered hb
                  exact ⟨by rw [h1]; exact h2, by rw [h1]; exact h3⟩
        | none =>
          unfold posixPath
          dsimp only
          cases hao : posixAutoOpen fl rand s with
          | mk r1 t1 =>
            cases r1 with
            | error e => trivial
            | ok pr =>
              obtain ⟨fd, nm⟩ := pr
              dsimp only
              cases hb : posixBody fl create size.toNat fd nm t1 with
              | mk r2 t2 =>
                cases r2 with
                | error e => trivial
                | ok hd =>
                  obtain ⟨h1, h2, h3⟩ := posixBody_ok_registered hb
                  exact ⟨by rw [h1]; exact h2, by rw [h1]; exact h3⟩

/-- C4: every call with create=true and size ≤ 0, and every call with
negative size regardless of create, fails with the invalid-size ValueError
and returns the operating-system state completely unchanged — in
particular the trace records no OS call, so no reservation happened. -/
theorem C4_invalid_size_rejected (usePosix : Bool) (nameArg : Option String)
    (create : Bool) (size : Int) (rand : List (List Nat)) (s : OSState)
    (hs : size < 0 ∨ (create = true ∧ size ≤ 0)) :
    _SharedMemory_init usePosix nameArg create size rand s =
      (.error .invalidSize, s) := by
  unfold _SharedMemory_init
  rcases hs with h | ⟨hc, h⟩
  · rw [if_pos h]
  · subst hc
    rcases lt_or_eq_of_le h with h0 | h0
    · rw [if_pos h0]
    · rw [if_neg (by omega)]
      dsimp only
      rw [if_pos ⟨rfl, h0⟩]

/-- C4 witness: size 0 with create=true on the empty state. -/
theorem C4_invalid_size_rejected_witness :
    ((0 : Int) < 0 ∨ (true = true ∧ (0 : Int) ≤ 0)) ∧
    _SharedMemory_init true none true 0 [] st0 = (.error .invalidSize, st0) :=
  ⟨Or.inr ⟨rfl, by decide⟩,
   C4_invalid_size_rejected true none true 0 [] st0 (Or.inr ⟨rfl, by decide⟩)⟩

/-- C5: every call with name omitted and create=false fails with the
missing-name ValueError and returns the operating-system state unchanged,
so no OS-level operation is performed. -/
theorem C5_missing_name_rejected (usePosix : Bool) (size : Int)
    (rand : List (List Nat)) (s : OSState) (h0 : 0 ≤ size) :
    _SharedMemory_init usePosix none false size rand s =
      (.error .missingName, s) := by
  unfold _SharedMemory_init
  rw [if_neg (by omega)]
  dsimp only
  rw [if_neg (by simp)]
  rw [if_pos ⟨rfl, by decide⟩]

/-- C5 witness: the theorem at usePosix=false, size 4, empty state. -/
theorem C5_missing_name_rejected_witness :
    (0 : Int) ≤ 4 ∧
    _SharedMemory_init false none false 4 [] st0 = (.error .missingName, st0) :=
  ⟨by decide, C5_missing_name_rejected false 4 [] st0 (by decide)⟩

/-- C8: every auto-generated name is at most 14 characters long and
consists of exactly the 5-character platform lead-in followed by lowercase
hexadecimal characters, for every entropy input and on both families. -/
theorem C8_make_filename_safe (usePosix : Bool) (entropy : List Nat) :
    (_make_filename usePosix entropy).length ≤ _SHM_SAFE_NAME_LENGTH ∧
    (_make_filename usePosix entropy).data.take 5 = (shmNamePfx usePosix).data ∧
    ((_make_filename usePosix entropy).data.drop 5).all isHexLower = true := by
  cases usePosix
  · refine ⟨?_, ?_, ?_⟩
    · show ((_make_filename false entropy).data).length ≤ 14
      rw [show (_make_filename false entropy).data
            = "wnsm_".data ++ tokenHex 4 entropy from rfl]
      rw [List.length_append, tokenHex_length]
      decide
    · show List.take 5 (_make_filename false entropy).data = "wnsm_".data
      rw [show (_make_filename false entropy).data
            = "wnsm_".data ++ tokenHex 4 entropy from rfl]
      rfl
    · rw [show List.drop 5 (_make_filename false entropy).data
            = tokenHex 4 entropy from rfl]
      exact tokenHex_all_hex 4 entropy
  · refine ⟨?_, ?_, ?_⟩
    · show ((_make_filename true entropy).data).length ≤ 14
      rw [show (_make_filename true entropy).data
            = "/psm_".data ++ tokenHex 4 entropy from rfl]
      rw [List.length_append, tokenHex_length]
      decide
    · show List.take 5 (_make_filename true entropy).data = "/psm_".data
      rw [show (_make_filename true entropy).data
            = "/psm_".data ++ tokenHex 4 entropy from rfl]
      rfl
    · rw [show List.drop 5 (_make_filename true entropy).data
            = tokenHex 4 entropy from rfl]
      exact tokenHex_all_hex 4 entropy

theorem posixBody_attach_size_irrel {flags sizeA sizeB fd : Nat} {nm : String}
    {s : OSState} :
    posixBody flags false sizeA fd nm s = posixBody flags false sizeB fd nm s := by
  unfold posixBody
  rw [if_neg (by simp), if_neg (by simp)]

theorem posixPath_attach_size_irrel {n : String} {flags sizeA sizeB : Nat}
    {rand : List (List Nat)} {s : OSState} :
    posixPath (some n) false sizeA flags rand s =
      posixPath (some n) false sizeB flags rand s := by
  unfold posixPath
  dsimp only
  cases hso : shm_open ("/" ++ n) flags s with
  | mk r1 t1 =>
    cases r1 with
    | error e => rfl
    | ok fd => exact posixBody_attach_size_irrel

/-- The size the attach path discovers for name n in state s: the POSIX
family reads st_size via fstat, the Windows family the object's size via
VirtualQuerySize of a probe view. -/
def attachedSizeOf (usePosix : Bool) (n : String) (s : OSState) : Option Nat :=
  if usePosix then assocFind s.posixObjs ("/" ++ n)
  else (assocFind s.winObjs n).map ShmObj.size

/-- On a successful run the handle's discovered size equals S; failed runs
satisfy this vacuously. -/
def sizeDiscovered (S : Nat) : Except InitErr SHandle × OSState → Prop
  | (.ok hd, _) => hd.size = S
  | (.error _, _) => True

/-- C7: attaching (create=false) to a name whose object has size S yields
a handle whose size is the discovered S, and the run is completely
independent of the size argument the attaching caller supplies: two calls
differing only in (nonnegative) size are equal as functions of the state. -/
theorem C7_attach_size_from_object (usePosix : Bool) (n : String) (S : Nat)
    (size1 size2 : Int) (rand : List (List Nat)) (s : OSState)
    (h1 : 0 ≤ size1) (h2 : 0 ≤ size2)
    (hm : attachedSizeOf usePosix n s = some S) :
    _SharedMemory_init usePosix (some n) false size1 rand s =
      _SharedMemory_init usePosix (some n) false size2 rand s ∧
    sizeDiscovered S (_SharedMemory_init usePosix (some n) false size1 rand s) := by
  cases usePosix
  · rw [init_win_attach_eq n size1 rand s (by omega),
        init_win_attach_eq n size2 rand s (by omega)]
    refine ⟨rfl, ?_⟩
    have hm2 : (assocFind s.winObjs n).map ShmObj.size = some S := hm
    cases hfind : assocFind s.winObjs n with
    | none =>
      rw [hfind] at hm2
      exact absurd hm2 (by simp)
    | some o =>
    rw [hfind, Option.map_some'] at hm2
    simp only [Option.some.injEq] at hm2
    have hS : o.size = S := hm2
    by_cases hf : faultAt s = true
    · rw [winAttach_fault hf]
      trivial
    · rw [Bool.not_eq_true] at hf
      by_cases hf2 : s.faults.getD (s.callCount + 1) false = true
      · cases hr : winAttach n O_RDWR s with
        | mk r1 s9 =>
          have hfst := @winAttach_mapViewFault_fst n O_RDWR s o hf hfind hf2
          rw [hr] at hfst
          dsimp only at hfst
          subst hfst
          trivial
      · rw [Bool.not_eq_true] at hf2
        by_cases hf3 : s.faults.getD (s.callCount + 1 + 1) false = true
        · cases hr : winAttach n O_RDWR s with
          | mk r1 s9 =>
            have hfst := @winAttach_vqsFault_fst n O_RDWR s o hf hfind hf2 hf3
            rw [hr] at hfst
            dsimp only at hfst
            subst hfst
            trivial
        · rw [Bool.not_eq_true] at hf3
          by_cases hf4 : s.faults.getD (s.callCount + 1 + 1 + 1) false = true
          · cases hr : winAttach n O_RDWR s with
            | mk r1 s9 =>
              have hfst := @winAttach_mmapFault_fst n O_RDWR s o hf hfind hf2 hf3 hf4
              rw [hr] at hfst
              dsimp only at hfst
              subst hfst
              trivial
          · rw [Bool.not_eq_true] at hf4
            rw [winAttach_success hf hfind hf2 hf3 hf4]
            exact hS
  · rw [init_posix_attach_eq n size1 rand s (by omega),
        init_posix_attach_eq n size2 rand s (by omega)]
    refine ⟨posixPath_attach_size_irrel, ?_⟩
    have hm2 : assocFind s.posixObjs ("/" ++ n) = some S := hm
    unfold posixPath
    dsimp only
    by_cases hf : faultAt s = true
    · rw [shm_open_fault hf]
      trivial
    · rw [Bool.not_eq_true] at hf
      rw [shm_open_attach hf hm2 (by decide)]
      dsimp only
      by_cases hb1 : s.faults.getD (s.callCount + 1) false = true
      · rw [posixBody_attach_fstatFault (by exact hb1)]
        trivial
      · rw [Bool.not_eq_true] at hb1
        by_cases hb2 : s.faults.getD (s.callCount + 1 + 1) false = true
        · rw [posixBody_attach_mmapFault (by exact hb1)
                (assocFind_cons_self _ _ _) (by exact hm2) (by exact hb2)]
          trivial
        · rw [Bool.not_eq_true] at hb2
          rw [posixBody_attach_success (by exact hb1)
                (assocFind_cons_self _ _ _) (by exact hm2) (by exact hb2)]
          rfl

/-- C7 witness: the theorem applied on the Windows family to a
pre-existing 16-byte object named x, with caller sizes 0 and 5. -/
theorem C7_attach_size_from_object_witness :
    ((0 : Int) ≤ 0 ∧ (0 : Int) ≤ 5 ∧
      attachedSizeOf false "x"
        { st0 with winObjs := [("x", { size := 16, handles := 1, views := 0 })] }
        = some 16) ∧
    (_SharedMemory_init false (some "x") false 0 []
        { st0 with winObjs := [("x", { size := 16, handles := 1, views := 0 })] } =
      _SharedMemory_init false (some "x") false 5 []
        { st0 with winObjs := [("x", { size := 16, handles := 1, views := 0 })] } ∧
      sizeDiscovered 16 (_SharedMemory_init false (some "x") false 0 []
        { st0 with winObjs := [("x", { size := 16, handles := 1, views := 0 })] })) :=
  ⟨⟨by decide, by decide, by decide⟩,
   C7_attach_size_from_object false "x" 16 0 5 []
     { st0 with winObjs := [("x", { size := 16, handles := 1, views := 0 })] }
     (by decide) (by decide) (by decide)⟩

/-- Whether name n exists (with a live, referenced kernel object on the
Windows family) in state s, as seen by the creation path. -/
def nameExistsLive (usePosix : Bool) (n : String) (s : OSState) : Bool :=
  if usePosix then (assocFind s.posixObjs ("/" ++ n)).isSome
  else
    match assocFind s.winObjs n with
    | some o => decide (0 < o.handles + o.views)
    | none => false

/-- Whether an event is an exclusive-creation attempt: CreateFileMapping
on the Windows family, shm_open carrying O_EXCL on the POSIX family. -/
def isReservationAttempt : Event → Bool
  | .evCreateFileMapping _ _ _ => true
  | .evShmOpen _ fl => decide (fl &&& O_EXCL ≠ 0)
  | _ => false

/-- How many exclusive-creation attempts a trace records. -/
def countResAttempts (t : List Event) : Nat := t.countP isReservationAttempt

/-- C6: creating with create=true under a caller-supplied name that
already exists performs exactly one exclusive-creation attempt, surfaces
the collision as FileExistsError with no retry, and leaves both
namespaces — in particular the pre-existing object — untouched.  Stated
for fault-free runs (an injected unrelated OS fault would mask the
collision). -/
theorem C6_named_create_collision (usePosix : Bool) (n : String) (size : Int)
    (rand : List (List Nat)) (s : OSState) (hsz : 0 < size)
    (hfl : s.faults = []) (hm : nameExistsLive usePosix n s = true) :
    (_SharedMemory_init usePosix (some n) true size rand s).1
        = .error .fileExists ∧
    (_SharedMemory_init usePosix (some n) true size rand s).2.posixObjs
        = s.posixObjs ∧
    (_SharedMemory_init usePosix (some n) true size rand s).2.winObjs
        = s.winObjs ∧
    countResAttempts (_SharedMemory_init usePosix (some n) true size rand s).2.rtrace
        = countResAttempts s.rtrace + 1 := by
  have hf : faultAt s = false := by simp [faultAt, hfl]
  cases usePosix
  · rw [init_win_create_eq (some n) size rand s (by omega) (by omega)]
    unfold winPath
    rw [if_pos rfl]
    dsimp only
    have hm2 : (match assocFind s.winObjs n with
      | some o => decide (0 < o.handles + o.views)
      | none => false) = true := hm
    cases hw : assocFind s.winObjs n with
    | none =>
      rw [hw] at hm2
      exact absurd hm2 (by simp)
    | some o =>
      rw [hw] at hm2
      have hlive : 0 < o.handles + o.views := by simpa using hm2
      rw [winCreateNamed_collision hf hw hlive]
      refine ⟨rfl, rfl, rfl, ?_⟩
      simp [countResAttempts, List.countP_cons, isReservationAttempt]
  · rw [init_posix_create_eq (some n) size rand s (by omega) (by omega)]
    unfold posixPath
    dsimp only
    have hm2 : (assocFind s.posixObjs ("/" ++ n)).isSome = true := hm
    cases hw : assocFind s.posixObjs ("/" ++ n) with
    | none =>
      rw [hw] at hm2
      exact absurd hm2 (by simp)
    | some v =>
      rw [shm_open_excl_exists hf hw (by decide)]
      refine ⟨rfl, rfl, rfl, ?_⟩
      simp [countResAttempts, List.countP_cons, isReservationAttempt, O_EXCL,
            _O_CREX, O_CREAT, O_RDWR]

/-- C6 witness: the theorem on the Windows family against a live
pre-existing 4-byte object named x. -/
theorem C6_named_create_collision_witness :
    ((0 : Int) < 4 ∧
      OSState.faults { st0 with winObjs := [("x", { size := 4, handles := 1, views := 0 })] } = [] ∧
      nameExistsLive false "x"
        { st0 with winObjs := [("x", { size := 4, handles := 1, views := 0 })] } = true) ∧
    ((_SharedMemory_init false (some "x") true 4 []
        { st0 with winObjs := [("x", { size := 4, handles := 1, views := 0 })] }).1
        = .error .fileExists ∧
     (_SharedMemory_init false (some "x") true 4 []
        { st0 with winObjs := [("x", { size := 4, handles := 1, views := 0 })] }).2.posixObjs
        = OSState.posixObjs { st0 with winObjs := [("x", { size := 4, handles := 1, views := 0 })] } ∧
     (_SharedMemory_init false (some "x") true 4 []
        { st0 with winObjs := [("x", { size := 4, handles := 1, views := 0 })] }).2.winObjs
        = OSState.winObjs { st0 with winObjs := [("x", { size := 4, handles := 1, views := 0 })] } ∧
     countResAttempts (_SharedMemory_init false (some "x") true 4 []
        { st0 with winObjs := [("x", { size := 4, handles := 1, views := 0 })] }).2.rtrace
        = countResAttempts (OSState.rtrace { st0 with winObjs := [("x", { size := 4, handles := 1, views := 0 })] }) + 1) :=
  ⟨⟨by decide, by decide, by decide⟩,
   C6_named_create_collision false "x" 4 []
     { st0 with winObjs := [("x", { size := 4, handles := 1, views := 0 })] }
     (by decide) (by decide) (by decide)⟩

/-- On a failed run both namespaces are exactly as before the call — any
freshly reserved object was released again before the error propagated;
successful runs satisfy this vacuously. -/
def noOrphanOnError (s : OSState) : Except InitErr SHandle × OSState → Prop
  | (.error _, s2) => s2.posixObjs = s.posixObjs ∧ s2.winObjs = s.winObjs
  | (.ok _, _) => True

theorem noOrphanOnError_trans {s t : OSState} {r : Except InitErr SHandle × OSState}
    (hp : t.posixObjs = s.posixObjs) (hw : t.winObjs = s.winObjs)
    (h : noOrphanOnError t r) : noOrphanOnError s r := by
  cases r with
  | mk r1 s2 =>
    cases r1 with
    | ok hd => trivial
    | error e =>
      obtain ⟨a, b⟩ := h
      exact ⟨by rw [a, hp], by rw [b, hw]⟩

theorem posixPath_auto_create_noOrphan (size : Nat) (hsz : size ≠ 0) :
    ∀ (rand : List (List Nat)) (s : OSState),
      noOrphanOnError s (posixPath none true size (_O_CREX ||| O_RDWR) rand s) := by
  intro rand
  induction rand with
  | nil =>
    intro s
    exact ⟨rfl, rfl⟩
  | cons entropy rest ih =>
    intro s
    unfold posixPath
    dsimp only
    simp only [posixAutoOpen]
    by_cases hf1 : faultAt s = true
    · rw [shm_open_fault hf1]
      exact ⟨rfl, rfl⟩
    · rw [Bool.not_eq_true] at hf1
      cases hpo : assocFind s.posixObjs (_make_filename true entropy) with
      | some v =>
        rw [shm_open_excl_exists hf1 hpo (by decide)]
        dsimp only
        exact noOrphanOnError_trans rfl rfl
          (ih { s with callCount := s.callCount + 1,
                       rtrace := .evShmOpen (_make_filename true entropy)
                         (_O_CREX ||| O_RDWR) :: s.rtrace })
      | none =>
        rw [shm_open_create hf1 hpo (by decide)]
        dsimp only
        by_cases hb1 : s.faults.getD (s.callCount + 1) false = true
        · rw [posixBody_create_ftruncateFault hsz (by exact hb1)]
          exact ⟨assocRemove_cons_self _ _ _, rfl⟩
        · rw [Bool.not_eq_true] at hb1
          by_cases hb2 : s.faults.getD (s.callCount + 1 + 1) false = true
          · rw [posixBody_create_fstatFault hsz (by exact hb1)
                  (assocFind_cons_self _ _ _) (by exact hb2)]
            exact ⟨assocRemove_cons_self _ _ _, rfl⟩
          · rw [Bool.not_eq_true] at hb2
            by_cases hb3 : s.faults.getD (s.callCount + 1 + 1 + 1) false = true
            · rw [posixBody_create_mmapFault hsz (by exact hb1)
                    (assocFind_cons_self _ _ _) (assocFind_cons_self _ _ _)
                    (by exact hb2) (by exact hb3)]
              exact ⟨assocRemove_cons_self _ _ _, rfl⟩
            · rw [Bool.not_eq_true] at hb3
              rw [posixBody_create_success hsz (by exact hb1)
                    (assocFind_cons_self _ _ _) (assocFind_cons_self _ _ _)
                    (by exact hb2) (by exact hb3)]
              trivial

theorem winCreateAuto_noOrphan (size flags : Nat) :
    ∀ (rand : List (List Nat)) (s : OSState), winWFb s = true →
      noOrphanOnError s (winCreateAuto size flags rand s) := by
  intro rand
  induction rand with
  | nil =>
    intro s hwf
    exact ⟨rfl, rfl⟩
  | cons entropy rest ih =>
    intro s hwf
    simp only [winCreateAuto]
    by_cases hf1 : faultAt s = true
    · rw [winCreateAttemptAuto_fault hf1]
      exact ⟨rfl, rfl⟩
    · rw [Bool.not_eq_true] at hf1
      cases hw : assocFind s.winObjs (_make_filename false entropy) with
      | some o =>
        rw [winCreateAttemptAuto_collision hf1 hw (winWFb_find hwf hw)]
        dsimp only
        exact noOrphanOnError_trans rfl rfl
          (ih { s with callCount := s.callCount + 1,
                       rtrace := .evCloseHandle s.nextId ::
                         .evCreateFileMapping (_make_filename false entropy) size
                           s.nextId :: s.rtrace,
                       nextId := s.nextId + 1,
                       lastError := ERROR_ALREADY_EXISTS } (by exact hwf))
      | none =>
        by_cases hf2 : s.faults.getD (s.callCount + 1) false = true
        · rw [winCreateAttemptAuto_mmapFault hf1 hw hf2]
          exact ⟨rfl, rfl⟩
        · rw [Bool.not_eq_true] at hf2
          rw [winCreateAttemptAuto_success hf1 hw hf2]
          trivial

/-- C1: with create=true, whenever the initializer raises an error, both
shared-memory namespaces are left exactly as they were before the call:
a kernel object reserved during the failed creation is unlinked (POSIX
family, the self.unlink() in the except clause) or released through the
finally-clause CloseHandle (Windows family) before the error propagates,
so a failed open never leaves an orphaned kernel object.  The hypothesis
asks that every pre-existing Windows object be live (referenced by at
least one handle or view), which every state reachable by the modelled
kernel satisfies. -/
theorem C1_failed_create_leaves_no_orphan (usePosix : Bool)
    (nameArg : Option String) (size : Int) (rand : List (List Nat))
    (s : OSState) (hwf : winWFb s = true) :
    noOrphanOnError s (_SharedMemory_init usePosix nameArg true size rand s) := by
  by_cases h0 : size < 0
  · unfold _SharedMemory_init
    rw [if_pos h0]
    exact ⟨rfl, rfl⟩
  · by_cases hz : size = 0
    · unfold _SharedMemory_init
      rw [if_neg h0]
      dsimp only
      rw [if_pos ⟨rfl, hz⟩]
      exact ⟨rfl, rfl⟩
    · have hsz : size.toNat ≠ 0 := by omega
      cases usePosix
      · rw [init_win_create_eq nameArg size rand s h0 hz]
        unfold winPath
        rw [if_pos rfl]
        cases nameArg with
        | none => exact winCreateAuto_noOrphan size.toNat (_O_CREX ||| O_RDWR) rand s hwf
        | some n =>
          dsimp only
          by_cases hf1 : faultAt s = true
          · rw [winCreateNamed_fault hf1]
            exact ⟨rfl, rfl⟩
          · rw [Bool.not_eq_true] at hf1
            cases hw : assocFind s.winObjs n with
            | some o =>
              rw [winCreateNamed_collision hf1 hw (winWFb_find hwf hw)]
              exact ⟨rfl, rfl⟩
            | none =>
              by_cases hf2 : s.faults.getD (s.callCount + 1) false = true
              · rw [winCreateNamed_mmapFault hf1 hw hf2]
                exact ⟨rfl, rfl⟩
              · rw [Bool.not_eq_true] at hf2
                rw [winCreateNamed_success hf1 hw hf2]
                trivial
      · rw [init_posix_create_eq nameArg size rand s h0 hz]
        cases nameArg with
        | none => exact posixPath_auto_create_noOrphan size.toNat hsz rand s
        | some n =>
          unfold posixPath
          dsimp only
          by_cases hf1 : faultAt s = true
          · rw [shm_open_fault hf1]
            exact ⟨rfl, rfl⟩
          · rw [Bool.not_eq_true] at hf1
            cases hpo : assocFind s.posixObjs ("/" ++ n) with
            | some v =>
              rw [shm_open_excl_exists hf1 hpo (by decide)]
              exact ⟨rfl, rfl⟩
            | none =>
              rw [shm_open_create hf1 hpo (by decide)]
              dsimp only
              by_cases hb1 : s.faults.getD (s.callCount + 1) false = true
              · rw [posixBody_create_ftruncateFault hsz (by exact hb1)]
                exact ⟨assocRemove_cons_self _ _ _, rfl⟩
              · rw [Bool.not_eq_true] at hb1
                by_cases hb2 : s.faults.getD (s.callCount + 1 + 1) false = true
                · rw [posixBody_create_fstatFault hsz (by exact hb1)
                        (assocFind_cons_self _ _ _) (by exact hb2)]
                  exact ⟨assocRemove_cons_self _ _ _, rfl⟩
                · rw [Bool.not_eq_true] at hb2
                  by_cases hb3 : s.faults.getD (s.callCount + 1 + 1 + 1) false = true
                  · rw [posixBody_create_mmapFault hsz (by exact hb1)
                          (assocFind_cons_self _ _ _) (assocFind_cons_self _ _ _)
                          (by exact hb2) (by exact hb3)]
                    exact ⟨assocRemove_cons_self _ _ _, rfl⟩
                  · rw [Bool.not_eq_true] at hb3
                    rw [posixBody_create_success hsz (by exact hb1)
                          (assocFind_cons_self _ _ _) (assocFind_cons_self _ _ _)
                          (by exact hb2) (by exact hb3)]
                    trivial

/-- C1 witness: the theorem applied to a Windows auto-generated creation
whose CreateFileMapping call is made to fail by the fault oracle. -/
theorem C1_failed_create_leaves_no_orphan_witness :
    winWFb { st0 with faults := [true] } = true ∧
    noOrphanOnError { st0 with faults := [true] }
      (_SharedMemory_init false none true 8 [[1, 2, 3, 4]]
        { st0 with faults := [true] }) :=
  ⟨by decide,
   C1_failed_create_leaves_no_orphan false none 8 [[1, 2, 3, 4]]
     { st0 with faults := [true] } (by decide)⟩
